import Mathlib

/-
  Verification of the curve420 library (rust_curve420 + rust_ed420).

  Shallow embedding of the Rust sources:
    - src/rust_curve420/src/field.rs      (prime field GF(p), p = 2^420 - 335)
    - src/rust_curve420/src/ristretto.rs  (prime-order wrapper, encode/decode)
    - src/rust_ed420/src/curve.rs         (twisted Edwards group)
    - src/rust_ed420/src/montgomery.rs    (Montgomery ladder)
    - src/rust_ed420/src/schnorr.rs       (Schnorr and blind Schnorr)

  Field elements are embedded as plain naturals (the canonical BigUint value
  held by the Rust FieldElement newtype; the Rust type does not enforce
  canonicity, so the embedding does not either).  Loops of the source are
  embedded with explicit fuel; fuel exhaustion (which for the Rust code would
  mean divergence or an arithmetic-underflow panic) is mapped to a sentinel
  Option result.  The SHA-512 digest used by the signature layer is an
  out-of-scope external dependency and is modelled as a function parameter.
-/

namespace Curve420

/-- Field modulus p = 2^420 - 335, the decimal literal of field.rs line 7. -/
def P : Nat := 2707685248164858261307045101702230179137145581421695874189921465443966120903931272499975005961073806735733604454495675614232241

/-- Prime subgroup order, the decimal literal of curve.rs lines 33-35. -/
def L : Nat := 338460656020607282663380637712778772392143197677711984273740183501508577674026655281164768623743539442603492250355597371718719

set_option exponentiation.threshold 1000 in
theorem P_eq_pow : P = 2 ^ 420 - 335 := by decide

/-- Fuel-indexed binary modular exponentiation; embeds BigUint::modpow from
the num-bigint dependency (base^exp mod m). -/
def powModF (m : Nat) : Nat → Nat → Nat → Nat
  | 0, _, _ => 1 % m
  | fuel + 1, b, e =>
    if e = 0 then 1 % m
    else
      let r := powModF m fuel ((b * b) % m) (e / 2)
      if e % 2 = 1 then (r * b) % m else r

/-- Modular exponentiation base^exp mod m (512 bits of fuel cover every
exponent the library uses). -/
def powMod (b e m : Nat) : Nat := powModF m 512 (b % m) e

/-- FieldElement::new (field.rs line 15): reduce mod p. -/
def fe_new (n : Nat) : Nat := n % P

/-- Helper sub_mod of field.rs lines 116-122. -/
def sub_mod (a b p : Nat) : Nat := if b ≤ a then a - b else a + p - b

/-- Neg for FieldElement (field.rs lines 125-132): sub_mod(P, x, P). -/
def fe_neg (x : Nat) : Nat := sub_mod P x P

/-- Add for FieldElement (field.rs lines 135-150). -/
def fe_add (a b : Nat) : Nat := (a + b) % P

/-- Sub for FieldElement (field.rs lines 153-168). -/
def fe_sub (a b : Nat) : Nat := sub_mod a b P

/-- Mul for FieldElement (field.rs lines 171-186). -/
def fe_mul (a b : Nat) : Nat := (a * b) % P

/-- FieldElement::inv (field.rs lines 19-22): x^(p-2) mod p. -/
def fe_inv (x : Nat) : Nat := powMod x (P - 2) P

/-- FieldElement::pow_big (field.rs line 27). -/
def fe_pow_big (x e : Nat) : Nat := powMod x e P

/-- FieldElement::parity (field.rs line 110): least significant bit. -/
def fe_parity (x : Nat) : Nat := x % 2

/-- FieldElement::legendre (field.rs lines 29-35). -/
def legendre (x : Nat) : Int :=
  if x = 0 then 0
  else
    let r := powMod x ((P - 1) / 2) P
    if r = 0 then 0 else if r = 1 then 1 else -1

/-- The loop of sqrt (field.rs lines 44-49) factoring p-1 = q * 2^s, q odd;
returns (q, s). -/
def tsSplit : Nat → Nat → Nat × Nat
  | 0, q => (q, 0)
  | fuel + 1, q =>
    if q % 2 = 0 then
      let r := tsSplit fuel (q / 2)
      (r.1, r.2 + 1)
    else (q, 0)

/-- The non-residue search of sqrt (field.rs lines 52-57): first z from the
start value with legendre(z) = -1. -/
def findZ : Nat → Nat → Option Nat
  | 0, _ => none
  | fuel + 1, z => if legendre z = -1 then some z else findZ fuel (z + 1)

/-- The inner loop of sqrt (field.rs lines 69-75): starting from i = 1 and
t2i = t, square t2i while i < m until it reaches 1; returns the final i
(equal to m when no power reached 1). -/
def tsInner : Nat → Nat → Nat → Nat → Nat
  | 0, i, _, _ => i
  | fuel + 1, i, t2i, m =>
    if i < m then
      let t2 := fe_mul t2i t2i
      if t2 = 1 then i else tsInner fuel (i + 1) t2 m
    else i

/-- The squaring loop of sqrt (field.rs lines 77-82): square b e times,
computing b^(2^e) mod p. -/
def sqPow (b : Nat) : Nat → Nat
  | 0 => b
  | e + 1 => sqPow (fe_mul b b) e

/-- The outer loop of sqrt (field.rs lines 67-89) on state (r, t, c, m).
The Rust expression m - i - 1 is u32 arithmetic; when the inner loop finds
no i < m (so i = m and the subtraction would underflow and panic) the
embedding returns none, as it does on fuel exhaustion (divergence). -/
def tsLoop : Nat → Nat → Nat → Nat → Nat → Option Nat
  | 0, r, t, _, _ => if t = 1 then some r else none
  | fuel + 1, r, t, c, m =>
    if t = 1 then some r
    else
      let i := tsInner (m + 1) 1 t m
      if m < i + 1 then none
      else
        let b := sqPow c (m - i - 1)
        let b2 := fe_mul b b
        tsLoop fuel (fe_mul r b) (fe_mul t b2) b2 i

/-- FieldElement::sqrt (field.rs lines 38-91), Tonelli-Shanks. -/
def fe_sqrt (x : Nat) : Option Nat :=
  if x = 0 then some 0
  else if legendre x ≠ 1 then none
  else
    let qs := tsSplit 512 (P - 1)
    match findZ 1000 2 with
    | none => none
    | some z =>
      let c := fe_pow_big z qs.1
      let t := fe_pow_big x qs.1
      let r := fe_pow_big x ((qs.1 + 1) / 2)
      tsLoop (qs.2 + 1) r t c qs.2

/-- FieldElement::from_le_bytes_canonical (field.rs lines 94-97), with the
byte list already decoded to its little-endian value. -/
def fromLEBytes : List Nat → Nat
  | [] => 0
  | b :: rest => b % 256 + 256 * fromLEBytes rest

/-- FieldElement::to_le_bytes_len (field.rs lines 100-104): little-endian
bytes, padded (or truncated) to the requested length. -/
def toLEBytes : Nat → Nat → List Nat
  | 0, _ => []
  | len + 1, n => n % 256 :: toLEBytes len (n / 256)

/-! ## Twisted Edwards curve (rust_ed420/src/curve.rs) -/

/-- Edwards parameter a = A + 2 (curve.rs lines 8-13). -/
def EDW_A : Nat := fe_new 763975519699500577645754547835125169481986463482154078046572648671788968290548038674290307302429817161505744408446033521089604

/-- Edwards parameter d = A - 2 (curve.rs lines 15-20). -/
def EDW_D : Nat := fe_new 763975519699500577645754547835125169481986463482154078046572648671788968290548038674290307302429817161505744408446033521089600

/-- Base point x-coordinate (curve.rs lines 23-26). -/
def Gx : Nat := fe_new 2554519045303036994902077297242990796196199161457630080356703041833906288977089421513471756737913123939108844302244613830350009

/-- Base point y-coordinate (curve.rs lines 27-29). -/
def Gy : Nat := fe_new 1554004282195909523747673681974014268960308454695342458183393593582942692590987497223833263666951454840260505456918987028153736

/-- EdwardsPoint (curve.rs lines 40-44): the neutral element or an affine
pair; derived structural equality, exactly as the Rust derive(PartialEq). -/
inductive EdwardsPoint where
  | infinity : EdwardsPoint
  | affine : Nat → Nat → EdwardsPoint
deriving DecidableEq, Repr

/-- EdwardsPoint::coords (curve.rs lines 47-52). -/
def coords : EdwardsPoint → Nat × Nat
  | .affine x y => (x, y)
  | .infinity => (0, 1)

/-- point_add (curve.rs lines 58-86). -/
def point_add : EdwardsPoint → EdwardsPoint → EdwardsPoint
  | .infinity, p => p
  | p, .infinity => p
  | .affine x1 y1, .affine x2 y2 =>
    let x1y2 := fe_mul x1 y2
    let y1x2 := fe_mul y1 x2
    let x1x2 := fe_mul x1 x2
    let y1y2 := fe_mul y1 y2
    let dxxyy := fe_mul (fe_mul EDW_D x1x2) y1y2
    let x3 := fe_mul (fe_add x1y2 y1x2) (fe_inv (fe_add 1 dxxyy))
    let y3 := fe_mul (fe_sub y1y2 (fe_mul EDW_A x1x2)) (fe_inv (fe_sub 1 dxxyy))
    .affine x3 y3

/-- point_double (curve.rs lines 88-94). -/
def point_double (p : EdwardsPoint) : EdwardsPoint :=
  match p with
  | .affine _ _ => point_add p p
  | .infinity => .infinity

/-- Neg for EdwardsPoint (curve.rs lines 117-135). -/
def point_neg : EdwardsPoint → EdwardsPoint
  | .infinity => .infinity
  | .affine x y => .affine (fe_neg x) y

/-- Sub for EdwardsPoint (curve.rs lines 137-156). -/
def point_sub (p q : EdwardsPoint) : EdwardsPoint := point_add p (point_neg q)

/-- The double-and-add loop of Mul for EdwardsPoint (curve.rs lines 158-192),
fuel-indexed on the shrinking scalar. -/
def mulScalarF : Nat → EdwardsPoint → EdwardsPoint → Nat → EdwardsPoint
  | 0, res, _, _ => res
  | fuel + 1, res, temp, s =>
    if s = 0 then res
    else
      mulScalarF fuel (if s % 2 = 1 then point_add res temp else res)
        (point_double temp) (s / 2)

/-- Mul for EdwardsPoint: scalar multiplication, least significant bit
first (512 bits of fuel cover every scalar the library uses). -/
def mulScalar (p : EdwardsPoint) (s : Nat) : EdwardsPoint :=
  mulScalarF 512 .infinity p s

/-- The Edwards base point G (curve.rs lines 23-30). -/
def Gpt : EdwardsPoint := .affine Gx Gy

/-! ## Montgomery ladder (rust_ed420/src/montgomery.rs) -/

/-- Montgomery parameter A (montgomery.rs lines 9-14). -/
def M_A : Nat := fe_new 763975519699500577645754547835125169481986463482154078046572648671788968290548038674290307302429817161505744408446033521089602

/-- Montgomery base point u-coordinate (montgomery.rs lines 17-22). -/
def G_MONT_U : Nat := fe_new 1887066872174968132246224128199266266323489104588603923691363826518154582291788366769852665419756146257203683605002692187211605

/-- ladder_step (montgomery.rs lines 80-113) on projective pairs (X, Z):
returns (2*p0, p0+p1), the difference of p0 and p1 being the base point. -/
def ladder_step (p0 p1 : Nat × Nat) (base_x : Nat) : (Nat × Nat) × (Nat × Nat) :=
  let v0 := fe_add p0.1 p0.2
  let v1 := fe_sub p0.1 p0.2
  let v2 := fe_add p1.1 p1.2
  let v3 := fe_sub p1.1 p1.2
  let v4 := fe_mul v0 v3
  let v5 := fe_mul v1 v2
  let v0a := fe_add v4 v5
  let v1a := fe_sub v4 v5
  let x_added := fe_mul v0a v0a
  let z_added := fe_mul (fe_mul base_x v1a) v1a
  let x0_sq := fe_mul p0.1 p0.1
  let z0_sq := fe_mul p0.2 p0.2
  let x_doubled := fe_mul (fe_sub x0_sq z0_sq) (fe_sub x0_sq z0_sq)
  let four_x0_z0 := fe_sub (fe_mul v0 v0) (fe_mul v1 v1)
  let t := fe_add (fe_add x0_sq (fe_mul (fe_mul M_A p0.1) p0.2)) z0_sq
  let z_doubled := fe_mul four_x0_z0 t
  ((x_doubled, z_doubled), (x_added, z_added))

/-- One ladder iteration for the bit at index i (montgomery.rs lines 64-74):
conditional swap, ladder step, conditional swap back. -/
def ladderIter (st : (Nat × Nat) × (Nat × Nat)) (bit : Bool) (base_x : Nat) :
    (Nat × Nat) × (Nat × Nat) :=
  let sw := if bit then (st.2, st.1) else st
  let r := ladder_step sw.1 sw.2 base_x
  if bit then (r.2, r.1) else r

/-- The bit loop of montgomery_ladder, iterating indices i-1, ..., 0. -/
def ladderLoop (base_x k : Nat) : Nat → ((Nat × Nat) × (Nat × Nat)) → ((Nat × Nat) × (Nat × Nat))
  | 0, st => st
  | i + 1, st => ladderLoop base_x k i (ladderIter st ((k / 2 ^ i) % 2 = 1) base_x)

/-- Bit length of a scalar (BigUint::bits), via fuel. -/
def bitsLen : Nat → Nat → Nat
  | 0, _ => 0
  | fuel + 1, n => if n = 0 then 0 else bitsLen fuel (n / 2) + 1

/-- ProjPoint::to_montgomery (montgomery.rs lines 44-50): u = 0 when Z = 0,
else u = X * Z^(-1). -/
def proj_to_montgomery (xz : Nat × Nat) : Nat :=
  if xz.2 = 0 then 0 else fe_mul xz.1 (fe_inv xz.2)

/-- montgomery_ladder (montgomery.rs lines 60-77). -/
def montgomery_ladder (u k : Nat) : Nat :=
  let st := ladderLoop u k (bitsLen 512 k) ((1, 0), (u, 1))
  proj_to_montgomery st.1

/-! ## Prime-order wrapper (rust_curve420/src/ristretto.rs) -/

/-- Constant D' = (2 - A)/(A + 2) (ristretto.rs lines 22-28). -/
def D_M1 : Nat := fe_new 2452716181725381856644875084906193393415092913133662187679137757399562559402223776760896555937275583243540028031723320155896995

/-- Constant sqrt(-1) mod p (ristretto.rs lines 29-34). -/
def SQRT_M1 : Nat := fe_new 1125536906516536500462288751072116878795238505010065672221134269135451808572734403962317328989539260645101783109609626216749877

/-- RistrettoPoint newtype around an Edwards point (ristretto.rs line 11). -/
structure RistrettoPoint where
  inner : EdwardsPoint
deriving DecidableEq, Repr

/-- RistrettoError (ristretto.rs lines 13-17). -/
inductive RistrettoError where
  | invalidEncoding : RistrettoError
  | notImplemented : RistrettoError
deriving DecidableEq, Repr

/-- is_identity_point (ristretto.rs lines 44-49): Infinity, or an affine pair
whose raw coordinate values are 0 and 1. -/
def is_identity_point : EdwardsPoint → Bool
  | .infinity => true
  | .affine x y => x = 0 && y = 1

/-- RistrettoPoint::from_edwards_checked (ristretto.rs lines 42-58). -/
def from_edwards_checked (p : EdwardsPoint) : Option RistrettoPoint :=
  if is_identity_point (mulScalar p L) && !is_identity_point p then some ⟨p⟩ else none

/-- RistrettoPoint::encode (ristretto.rs lines 85-94): little-endian x over
53 bytes with the top bit of the last byte set to parity(y). -/
def rencode (p : RistrettoPoint) : List Nat :=
  (toLEBytes 53 (coords p.inner).1).set 52
    ((toLEBytes 53 (coords p.inner).1).getD 52 0 % 128 + 128 * fe_parity (coords p.inner).2)

/-- sqrt_ratio (ristretto.rs lines 174-187). -/
def sqrt_ratio (u v : Nat) : Option Nat :=
  let x := fe_mul u (fe_inv v)
  match fe_sqrt x with
  | some r => some r
  | none =>
    let minus_one := fe_sub 0 1
    let x_neg := fe_mul x minus_one
    match fe_sqrt x_neg with
    | some r2 => some (fe_mul SQRT_M1 r2)
    | none => none

/-- ct_select_fe (ristretto.rs lines 192-194). -/
def ct_select_fe (a b : Nat) (choice : Nat) : Nat := if choice = 0 then a else b

/-- is_negative (ristretto.rs line 198): the parity bit. -/
def is_negative (x : Nat) : Nat := fe_parity x

/-- The y-recovery step of the Edwards-style decode branch (ristretto.rs
lines 104-118): given the parsed x and the sign bit, recover y from
y^2 = (1 - a x^2)/(1 - d x^2), select the root with matching parity and run
the subgroup check. -/
def decodeEdwardsY (x sign : Nat) : Option RistrettoPoint :=
  if fe_sub 1 (fe_mul EDW_D (fe_mul x x)) ≠ 0 then
    match fe_sqrt (fe_mul (fe_sub 1 (fe_mul EDW_A (fe_mul x x)))
        (fe_inv (fe_sub 1 (fe_mul EDW_D (fe_mul x x))))) with
    | some y0 =>
      from_edwards_checked (.affine x (if fe_parity y0 ≠ sign then fe_neg y0 else y0))
    | none => none
  else none

/-- The first, Edwards-style branch of RistrettoPoint::decode (ristretto.rs
lines 98-119); none when any of its nested checks fails. -/
def decodeEdwardsBranch (bytes : List Nat) : Option RistrettoPoint :=
  if fromLEBytes (bytes.set 52 (bytes.getD 52 0 % 128)) < P then
    decodeEdwardsY (fromLEBytes (bytes.set 52 (bytes.getD 52 0 % 128)))
      (bytes.getD 52 0 / 128 % 2)
  else none

/-- The second, Ristretto-style branch of RistrettoPoint::decode
(ristretto.rs lines 121-169). -/
def decodeRistrettoBranch (bytes : List Nat) : Except RistrettoError RistrettoPoint :=
  let t := fromLEBytes bytes
  if t < P then
    let r := t
    let r2 := fe_mul r r
    let u1 := fe_sub 1 r2
    let u2 := fe_add 1 r2
    let r4 := fe_mul r2 r2
    let v := fe_sub 1 (fe_mul D_M1 r4)
    let u2_sq := fe_mul u2 u2
    let denom := fe_mul v u2_sq
    match sqrt_ratio 1 denom with
    | none => .error .invalidEncoding
    | some invsqrt =>
      let den1 := fe_mul invsqrt u2
      let den2 := fe_mul den1 v
      let x0 := fe_mul (fe_add r r) den1
      let y0 := fe_mul u1 den2
      let xy := fe_mul x0 y0
      let neg_xy := is_negative xy
      let x1 := ct_select_fe x0 (fe_mul y0 SQRT_M1) neg_xy
      let y1 := ct_select_fe y0 (fe_mul x0 SQRT_M1) neg_xy
      let x2 := if is_negative y1 = 1 then fe_neg x1 else x1
      let y2 := if is_negative y1 = 1 then fe_neg y1 else y1
      match from_edwards_checked (.affine x2 y2) with
      | some rp => .ok rp
      | none => .error .notImplemented
  else .error .invalidEncoding

/-- RistrettoPoint::decode (ristretto.rs lines 97-169): the Edwards-style
branch first, falling through to the Ristretto-style branch on failure. -/
def rdecode (bytes : List Nat) : Except RistrettoError RistrettoPoint :=
  match decodeEdwardsBranch bytes with
  | some rp => .ok rp
  | none => decodeRistrettoBranch bytes

instance : DecidableEq (Except RistrettoError RistrettoPoint) := fun x y =>
  match x, y with
  | .error e, .error f => if h : e = f then isTrue (by subst h; rfl) else isFalse (by simp [h])
  | .error _, .ok _ => isFalse (by simp)
  | .ok _, .error _ => isFalse (by simp)
  | .ok a, .ok b => if h : a = b then isTrue (by subst h; rfl) else isFalse (by simp [h])

/-! ## Schnorr signatures (rust_ed420/src/schnorr.rs)

The SHA-512 digest is an external dependency (spec section 1 places the hash
out of scope); it is modelled as a function parameter H from the hashed
points and the message to the digest value interpreted as a natural. -/

/-- mod_l (schnorr.rs lines 10-13). -/
def mod_l (x : Nat) : Nat := x % L

/-- add_mod_l (schnorr.rs lines 15-18). -/
def add_mod_l (a b : Nat) : Nat := mod_l (a + b)

/-- sub_mod_l (schnorr.rs lines 20-27). -/
def sub_mod_l (a b : Nat) : Nat := if b ≤ a then a - b else L + a - b

/-- The digest type: from the list of hashed points and the message bytes to
a natural number (big-endian interpretation of the fixed-size digest). -/
def Digest : Type := List EdwardsPoint → List Nat → Nat

/-- hash_points_and_message (schnorr.rs lines 30-41): digest reduced mod L. -/
def hashPM (H : Digest) (points : List EdwardsPoint) (msg : List Nat) : Nat :=
  mod_l (H points msg)

/-- Signature (schnorr.rs lines 74-78). -/
structure Signature where
  r : EdwardsPoint
  s : Nat
deriving DecidableEq, Repr

/-- sign (schnorr.rs lines 80-94) with the random nonce k passed explicitly
(the randomness source is out of scope). -/
def sign (H : Digest) (sk k : Nat) (pk : EdwardsPoint) (msg : List Nat) : Signature :=
  let r := mulScalar Gpt k
  let e := hashPM H [r, pk] msg
  { r := r, s := add_mod_l k (e * sk) }

/-- verify (schnorr.rs lines 96-109). -/
def verify (H : Digest) (pk : EdwardsPoint) (msg : List Nat) (sig : Signature) : Bool :=
  if sig.s = 0 || decide (L ≤ sig.s) then false
  else
    let e := hashPM H [sig.r, pk] msg
    let s_g := mulScalar Gpt sig.s
    let r_plus_e_pk := point_add sig.r (mulScalar pk e)
    s_g = r_plus_e_pk

/-- BlindSignatureSigner::new (schnorr.rs lines 131-139) with explicit
nonce k: the commitment R = k*G. -/
def blindSignerCommit (k : Nat) : EdwardsPoint := mulScalar Gpt k

/-- BlindSignatureSigner::sign (schnorr.rs lines 141-144):
s = k + e_blinded * sk mod L. -/
def blindSignerSign (sk k e_blinded : Nat) : Nat := add_mod_l k (e_blinded * sk)

/-- BlindSignatureRequester::new (schnorr.rs lines 148-163) with explicit
blinding scalars: the blinded commitment R' = R + alpha*G - beta*pk. -/
def blindRPrime (signer_pk r_from_signer : EdwardsPoint) (alpha beta : Nat) : EdwardsPoint :=
  point_sub (point_add r_from_signer (mulScalar Gpt alpha)) (mulScalar signer_pk beta)

/-- The challenge stored by BlindSignatureRequester::new (schnorr.rs
line 160). -/
def blindEPrime (H : Digest) (signer_pk r_prime : EdwardsPoint) (msg : List Nat) : Nat :=
  hashPM H [r_prime, signer_pk] msg

/-- BlindSignatureRequester::create_blinded_challenge (schnorr.rs
lines 165-168). -/
def blindChallenge (e_prime beta : Nat) : Nat := sub_mod_l e_prime beta

/-- BlindSignatureRequester::unblind_signature (schnorr.rs lines 170-174). -/
def blindUnblind (r_prime : EdwardsPoint) (s_from_signer alpha : Nat) : Signature :=
  { r := r_prime, s := add_mod_l s_from_signer alpha }

/-- verify_blind_signature (schnorr.rs lines 177-180): plain verify. -/
def verify_blind_signature (H : Digest) (pk : EdwardsPoint) (msg : List Nat)
    (sig : Signature) : Bool := verify H pk msg sig

/-- The twisted Edwards curve equation on raw coordinate values, phrased with
the embedded field operations (the invariant of the EdwardsPoint data model,
checked by the test test_base_point_on_curve of curve.rs). -/
def onCurve (x y : Nat) : Prop :=
  fe_add (fe_mul EDW_A (fe_mul x x)) (fe_mul y y) =
    fe_add 1 (fe_mul (fe_mul EDW_D (fe_mul x x)) (fe_mul y y))

instance (x y : Nat) : Decidable (onCurve x y) := by
  unfold onCurve
  infer_instance

/-- One iteration of the double-and-add loop, as a function on the loop
state (res, temp, s), iterated k times; used to evaluate concrete scalar
multiplications in bounded-depth chunks. -/
def stepN : Nat → EdwardsPoint × EdwardsPoint × Nat → EdwardsPoint × EdwardsPoint × Nat
  | 0, st => st
  | k + 1, st =>
    stepN k (if st.2.2 % 2 = 1 then point_add st.1 st.2.1 else st.1,
      point_double st.2.1, st.2.2 / 2)

/-! ## Arithmetic facts about the embedded primitives -/

theorem P_pos : 0 < P := by decide

theorem powModF_lt (m : Nat) (hm : 0 < m) :
    ∀ fuel b e, powModF m fuel b e < m := by
  intro fuel
  induction fuel with
  | zero => intro b e; exact Nat.mod_lt _ hm
  | succ f ih =>
    intro b e
    simp only [powModF]
    split
    · exact Nat.mod_lt _ hm
    · split
      · exact Nat.mod_lt _ hm
      · exact ih _ _

theorem powModF_eq (m : Nat) :
    ∀ fuel e b, e < 2 ^ fuel → powModF m fuel b e = b ^ e % m := by
  intro fuel
  induction fuel with
  | zero =>
    intro e b he
    interval_cases e
    simp [powModF]
  | succ f ih =>
    intro e b he
    simp only [powModF]
    by_cases h0 : e = 0
    · simp [h0]
    · simp only [h0, if_false]
      have hdiv : e / 2 < 2 ^ f := by
        have : e < 2 ^ f * 2 := by
          rw [pow_succ] at he; exact he
        omega
      rw [ih (e / 2) ((b * b) % m) hdiv]
      have hbb : ((b * b) % m) ^ (e / 2) % m = (b * b) ^ (e / 2) % m :=
        (Nat.pow_mod _ _ _).symm
      have hsplit : e = 2 * (e / 2) + e % 2 := (Nat.div_add_mod e 2).symm
      by_cases hpar : e % 2 = 1
      · simp only [hpar, if_true]
        rw [hbb, Nat.mod_mul_mod]
        congr 1
        rw [← pow_two, ← pow_mul, ← pow_succ]
        congr 1
        omega
      · simp only [hpar, if_false]
        rw [hbb]
        congr 1
        rw [← pow_two, ← pow_mul]
        congr 1
        omega

theorem powMod_eq (b e m : Nat) (he : e < 2 ^ 512) : powMod b e m = b ^ e % m := by
  rw [powMod, powModF_eq m 512 e (b % m) he, ← Nat.pow_mod]

theorem powMod_lt (b e m : Nat) (hm : 0 < m) : powMod b e m < m :=
  powModF_lt m hm _ _ _

theorem sub_mod_lt (a b p : Nat) (ha : a < p) (hb : b < p) : sub_mod a b p < p := by
  unfold sub_mod
  split <;> omega

/-- All four binary field operations return canonical representatives on
canonical inputs (the positive half of the canonical-representative
invariant; negation of zero is the exception, recorded separately). -/
theorem fe_binops_canonical (a b : Nat) (ha : a < P) (hb : b < P) :
    fe_add a b < P ∧ fe_sub a b < P ∧ fe_mul a b < P :=
  ⟨Nat.mod_lt _ P_pos, sub_mod_lt a b P ha hb, Nat.mod_lt _ P_pos⟩

/-- Negation returns a canonical representative on nonzero canonical
inputs. -/
theorem fe_neg_canonical (a : Nat) (h0 : 0 < a) (ha : a < P) : fe_neg a < P := by
  unfold fe_neg sub_mod
  split <;> omega

/-- Claim C2 (code bug): negation of the canonical zero returns the raw
value p itself, which is not a canonical representative (it is not < p) and
differs from the canonical zero under the derived equality. -/
theorem fe_neg_zero_noncanonical : fe_neg 0 = P ∧ ¬ fe_neg 0 < P ∧ fe_neg 0 ≠ 0 := by
  refine ⟨rfl, ?_, ?_⟩ <;> decide

/-- Claim C3: verify accepts exactly when s is a nonzero scalar below L and
the group equation s*G = R + e*pk holds, where e is the digest of [R, pk]
and the message reduced mod L; in particular it returns false whenever
s = 0 or s ≥ L, and the outcome is a bare boolean. -/
theorem verify_accepts_iff (H : Digest) (pk R : EdwardsPoint) (msg : List Nat) (s : Nat) :
    verify H pk msg ⟨R, s⟩ = true ↔
      s ≠ 0 ∧ s < L ∧
        mulScalar Gpt s = point_add R (mulScalar pk (H [R, pk] msg % L)) := by
  unfold verify hashPM mod_l
  by_cases h0 : s = 0
  · simp [h0]
  · by_cases hL : L ≤ s
    · simp [h0, hL]
    · simp [h0, hL]
      omega

set_option maxRecDepth 40000 in
set_option exponentiation.threshold 1000 in
theorem Pm2_lt_fuelBound : P - 2 < 2 ^ 512 := by decide


/-! ## Bridge from the Nat embedding to the ring ZMod p -/

instance : NeZero P := ⟨by decide⟩

theorem one_lt_P : 1 < P := by decide

theorem fe_mul_lt (a b : Nat) : fe_mul a b < P := Nat.mod_lt _ P_pos

theorem fe_add_lt (a b : Nat) : fe_add a b < P := Nat.mod_lt _ P_pos

theorem cast_fe_add (a b : Nat) : ((fe_add a b : Nat) : ZMod P) = (a : ZMod P) + (b : ZMod P) := by
  unfold fe_add
  rw [ZMod.natCast_mod]
  push_cast
  ring

theorem cast_fe_mul (a b : Nat) : ((fe_mul a b : Nat) : ZMod P) = (a : ZMod P) * (b : ZMod P) := by
  unfold fe_mul
  rw [ZMod.natCast_mod]
  push_cast
  ring

theorem cast_fe_sub (a b : Nat) (hb : b ≤ a + P) :
    ((fe_sub a b : Nat) : ZMod P) = (a : ZMod P) - (b : ZMod P) := by
  unfold fe_sub sub_mod
  split
  · rename_i h
    rw [Nat.cast_sub h]
  · rename_i h
    rw [Nat.cast_sub hb]
    push_cast
    rw [ZMod.natCast_self]
    ring

theorem cast_fe_neg (a : Nat) (ha : a ≤ P) : ((fe_neg a : Nat) : ZMod P) = -(a : ZMod P) := by
  unfold fe_neg sub_mod
  rw [if_pos ha, Nat.cast_sub ha, ZMod.natCast_self]
  ring

theorem cast_powMod (b e : Nat) (he : e < 2 ^ 512) :
    ((powMod b e P : Nat) : ZMod P) = (b : ZMod P) ^ e := by
  rw [powMod_eq b e P he, ZMod.natCast_mod]
  push_cast
  rfl

theorem cast_fe_pow (x e : Nat) (he : e < 2 ^ 512) :
    ((fe_pow_big x e : Nat) : ZMod P) = (x : ZMod P) ^ e := cast_powMod x e he

theorem cast_fe_inv (x : Nat) : ((fe_inv x : Nat) : ZMod P) = (x : ZMod P) ^ (P - 2) :=
  cast_powMod x (P - 2) Pm2_lt_fuelBound

theorem cast_inj_of_lt {a b : Nat} (ha : a < P) (hb : b < P)
    (h : (a : ZMod P) = (b : ZMod P)) : a = b := by
  have := (ZMod.natCast_eq_natCast_iff' a b P).mp h
  rwa [Nat.mod_eq_of_lt ha, Nat.mod_eq_of_lt hb] at this

theorem cast_sqPow (b e : Nat) : ((sqPow b e : Nat) : ZMod P) = (b : ZMod P) ^ (2 ^ e) := by
  induction e generalizing b with
  | zero => simp [sqPow]
  | succ e ih =>
    rw [sqPow, ih, cast_fe_mul]
    rw [← pow_two, ← pow_mul, pow_succ, mul_comm (2 ^ e) 2]

theorem sqPow_lt (e b : Nat) (hb : b < P) : sqPow b e < P := by
  induction e generalizing b with
  | zero => exact hb
  | succ e ih =>
    rw [sqPow]
    exact ih _ (fe_mul_lt _ _)

/-- Partial correctness of the Tonelli-Shanks outer loop: whatever the fuel
and auxiliary state, a returned value squares (in the field) to the tracked
target X.  The invariant is r^2 = X * t; the loop only returns r once
t = 1.  No primality of p is needed for this direction. -/
theorem tsLoop_some (X : ZMod P) :
    ∀ fuel r t c m r2, r < P → t < P →
      (r : ZMod P) ^ 2 = X * (t : ZMod P) →
      tsLoop fuel r t c m = some r2 →
      (r2 : ZMod P) ^ 2 = X ∧ r2 < P := by
  intro fuel
  induction fuel with
  | zero =>
    intro r t c m r2 hr ht hinv h
    unfold tsLoop at h
    split at h
    · rename_i h1
      cases h
      subst h1
      refine ⟨?_, hr⟩
      simpa using hinv
    · cases h
  | succ f ih =>
    intro r t c m r2 hr ht hinv h
    unfold tsLoop at h
    split at h
    · rename_i h1
      cases h
      subst h1
      refine ⟨?_, hr⟩
      simpa using hinv
    · dsimp only at h
      split at h
      · cases h
      · refine ih _ _ _ _ _ (fe_mul_lt _ _) (fe_mul_lt _ _) ?_ h
        rw [cast_fe_mul, cast_fe_mul, cast_fe_mul]
        rw [mul_pow]
        rw [hinv]
        ring

set_option maxRecDepth 40000 in
theorem tsSplit_eval : tsSplit 512 (P - 1) = ((P - 1) / 16, 4) := by decide

set_option maxRecDepth 40000 in
theorem findZ_eval : findZ 1000 2 = some 3 := by decide

set_option maxRecDepth 40000 in
set_option exponentiation.threshold 1000 in
theorem q1_bound : ((P - 1) / 16 + 1) / 2 < 2 ^ 512 := by decide

set_option maxRecDepth 40000 in
set_option exponentiation.threshold 1000 in
theorem Q0_bound : (P - 1) / 16 < 2 ^ 512 := by decide

theorem q1_double : ((P - 1) / 16 + 1) / 2 * 2 = (P - 1) / 16 + 1 := by decide

/-- Whenever Tonelli-Shanks returns a value, that value is a canonical
square root of its input in GF(p).  This direction holds without assuming
p prime. -/
theorem fe_sqrt_some (x r : Nat) (h : fe_sqrt x = some r) :
    (r : ZMod P) ^ 2 = (x : ZMod P) ∧ r < P := by
  by_cases h0 : x = 0
  · subst h0
    unfold fe_sqrt at h
    rw [if_pos rfl] at h
    cases h
    exact ⟨by simp, P_pos⟩
  · by_cases hleg : legendre x = 1
    · unfold fe_sqrt at h
      rw [if_neg h0, if_neg (by simp [hleg])] at h
      rw [tsSplit_eval, findZ_eval] at h
      dsimp only at h
      refine tsLoop_some (x : ZMod P) 5 _ _ _ 4 r (powMod_lt _ _ _ P_pos) (powMod_lt _ _ _ P_pos) ?_ h
      rw [cast_powMod _ _ q1_bound, cast_powMod _ _ Q0_bound]
      rw [← pow_mul, q1_double, pow_succ]
      ring
    · exfalso
      unfold fe_sqrt at h
      rw [if_neg h0, if_pos hleg] at h
      cases h

/-- sqrt of zero is zero (field.rs line 39). -/
theorem fe_sqrt_zero : fe_sqrt 0 = some 0 := rfl

/-- sqrt of a value with Legendre symbol -1 is a rejection (field.rs
line 41). -/
theorem fe_sqrt_nonresidue (x : Nat) (hleg : legendre x = -1) : fe_sqrt x = none := by
  have h0 : x ≠ 0 := by
    intro h
    subst h
    unfold legendre at hleg
    rw [if_pos rfl] at hleg
    cases hleg
  unfold fe_sqrt
  rw [if_neg h0, if_pos (by rw [hleg]; decide)]

/-! ## Primality of p via Lucas certificates

The proofs of the square-root, encoding and identity claims need GF(p) to
be a field, hence p = 2^420 - 335 to be prime.  Primality is established by
a chain of Lucas certificates (Mathlib lucas_primality), with the modular
exponentiations carried out by the executable powMod. -/

theorem prime_mem_of_dvd_prod {r : Nat} (hr : r.Prime) :
    ∀ l : List Nat, (∀ f ∈ l, Nat.Prime f) → r ∣ l.prod → r ∈ l := by
  intro l
  induction l with
  | nil =>
    intro _ hdvd
    simp only [List.prod_nil] at hdvd
    exact absurd (Nat.eq_one_of_dvd_one hdvd) hr.ne_one
  | cons f t ih =>
    intro hfac hdvd
    rw [List.prod_cons] at hdvd
    rcases (Nat.Prime.dvd_mul hr).mp hdvd with hcase | hcase
    · have : r = f := (Nat.prime_dvd_prime_iff_eq hr (hfac f (by simp))).mp hcase
      simp [this]
    · have : r ∈ t := ih (fun g hg => hfac g (by simp [hg])) hcase
      simp [this]

/-- Lucas certificate checker: n is prime when some base a has full order,
as witnessed through the executable powMod plus a complete list of the
prime factors of n - 1. -/
theorem lucas_cert (n a : Nat) (factors : List Nat) (h2 : 2 ≤ n)
    (hprod : factors.prod = n - 1)
    (hfac : ∀ f ∈ factors, Nat.Prime f)
    (hbound : n - 1 < 2 ^ 512)
    (ha : powMod a (n - 1) n = 1)
    (hnd : ∀ f ∈ factors, powMod a ((n - 1) / f) n ≠ 1) : Nat.Prime n := by
  apply lucas_primality n (a : ZMod n)
  · have hpe := powMod_eq a (n - 1) n hbound
    rw [ha] at hpe
    have : ((a ^ (n - 1) % n : Nat) : ZMod n) = ((1 : Nat) : ZMod n) := by
      rw [← hpe]
    rw [ZMod.natCast_mod] at this
    push_cast at this
    exact this
  · intro r hr hrdvd heq
    have hmem : r ∈ factors := prime_mem_of_dvd_prod hr factors hfac (hprod ▸ hrdvd)
    apply hnd r hmem
    have hlt : (n - 1) / r < 2 ^ 512 := lt_of_le_of_lt (Nat.div_le_self _ _) hbound
    rw [powMod_eq a _ n hlt]
    have hcast : ((a ^ ((n - 1) / r) : Nat) : ZMod n) = ((1 : Nat) : ZMod n) := by
      push_cast
      simpa using heq
    have := (ZMod.natCast_eq_natCast_iff' _ _ _).mp hcast
    rwa [Nat.mod_eq_of_lt (by omega : (1 : Nat) < n)] at this



set_option maxRecDepth 100000 in
set_option exponentiation.threshold 1000 in
theorem prime_9666960139 : Nat.Prime 9666960139 := by
  apply lucas_cert 9666960139 7 [2, 3, 3, 11, 17, 59, 48677] (by norm_num) (by decide)
  · intro f hf
    simp only [List.mem_cons, List.mem_singleton, List.not_mem_nil, or_false] at hf
    rcases hf with rfl | rfl | rfl | rfl | rfl | rfl | rfl
    exacts [by norm_num, by norm_num, by norm_num, by norm_num, by norm_num, by norm_num, by norm_num]
  · decide
  · decide
  · intro f hf
    simp only [List.mem_cons, List.mem_singleton, List.not_mem_nil, or_false] at hf
    rcases hf with rfl | rfl | rfl | rfl | rfl | rfl | rfl
    all_goals decide

set_option maxRecDepth 100000 in
set_option exponentiation.threshold 1000 in
theorem prime_28777211 : Nat.Prime 28777211 := by
  apply lucas_cert 28777211 2 [2, 5, 7, 7, 11, 19, 281] (by norm_num) (by decide)
  · intro f hf
    simp only [List.mem_cons, List.mem_singleton, List.not_mem_nil, or_false] at hf
    rcases hf with rfl | rfl | rfl | rfl | rfl | rfl | rfl
    exacts [by norm_num, by norm_num, by norm_num, by norm_num, by norm_num, by norm_num, by norm_num]
  · decide
  · decide
  · intro f hf
    simp only [List.mem_cons, List.mem_singleton, List.not_mem_nil, or_false] at hf
    rcases hf with rfl | rfl | rfl | rfl | rfl | rfl | rfl
    all_goals decide

set_option maxRecDepth 100000 in
set_option exponentiation.threshold 1000 in
theorem prime_345326533 : Nat.Prime 345326533 := by
  apply lucas_cert 345326533 2 [2, 2, 3, 28777211] (by norm_num) (by decide)
  · intro f hf
    simp only [List.mem_cons, List.mem_singleton, List.not_mem_nil, or_false] at hf
    rcases hf with rfl | rfl | rfl | rfl
    exacts [by norm_num, by norm_num, by norm_num, prime_28777211]
  · decide
  · decide
  · intro f hf
    simp only [List.mem_cons, List.mem_singleton, List.not_mem_nil, or_false] at hf
    rcases hf with rfl | rfl | rfl | rfl
    all_goals decide

set_option maxRecDepth 100000 in
set_option exponentiation.threshold 1000 in
theorem prime_2071959199 : Nat.Prime 2071959199 := by
  apply lucas_cert 2071959199 6 [2, 3, 345326533] (by norm_num) (by decide)
  · intro f hf
    simp only [List.mem_cons, List.mem_singleton, List.not_mem_nil, or_false] at hf
    rcases hf with rfl | rfl | rfl
    exacts [by norm_num, by norm_num, prime_345326533]
  · decide
  · decide
  · intro f hf
    simp only [List.mem_cons, List.mem_singleton, List.not_mem_nil, or_false] at hf
    rcases hf with rfl | rfl | rfl
    all_goals decide

set_option maxRecDepth 100000 in
set_option exponentiation.threshold 1000 in
theorem prime_236203348687 : Nat.Prime 236203348687 := by
  apply lucas_cert 236203348687 3 [2, 3, 19, 2071959199] (by norm_num) (by decide)
  · intro f hf
    simp only [List.mem_cons, List.mem_singleton, List.not_mem_nil, or_false] at hf
    rcases hf with rfl | rfl | rfl | rfl
    exacts [by norm_num, by norm_num, by norm_num, prime_2071959199]
  · decide
  · decide
  · intro f hf
    simp only [List.mem_cons, List.mem_singleton, List.not_mem_nil, or_false] at hf
    rcases hf with rfl | rfl | rfl | rfl
    all_goals decide

set_option maxRecDepth 100000 in
set_option exponentiation.threshold 1000 in
theorem prime_9448133947481 : Nat.Prime 9448133947481 := by
  apply lucas_cert 9448133947481 3 [2, 2, 2, 5, 236203348687] (by norm_num) (by decide)
  · intro f hf
    simp only [List.mem_cons, List.mem_singleton, List.not_mem_nil, or_false] at hf
    rcases hf with rfl | rfl | rfl | rfl | rfl
    exacts [by norm_num, by norm_num, by norm_num, by norm_num, prime_236203348687]
  · decide
  · decide
  · intro f hf
    simp only [List.mem_cons, List.mem_singleton, List.not_mem_nil, or_false] at hf
    rcases hf with rfl | rfl | rfl | rfl | rfl
    all_goals decide

set_option maxRecDepth 100000 in
set_option exponentiation.threshold 1000 in
theorem prime_1131467 : Nat.Prime 1131467 := by
  apply lucas_cert 1131467 2 [2, 7, 80819] (by norm_num) (by decide)
  · intro f hf
    simp only [List.mem_cons, List.mem_singleton, List.not_mem_nil, or_false] at hf
    rcases hf with rfl | rfl | rfl
    exacts [by norm_num, by norm_num, by norm_num]
  · decide
  · decide
  · intro f hf
    simp only [List.mem_cons, List.mem_singleton, List.not_mem_nil, or_false] at hf
    rcases hf with rfl | rfl | rfl
    all_goals decide

set_option maxRecDepth 100000 in
set_option exponentiation.threshold 1000 in
theorem prime_280658126417 : Nat.Prime 280658126417 := by
  apply lucas_cert 280658126417 3 [2, 2, 2, 2, 37, 419, 1131467] (by norm_num) (by decide)
  · intro f hf
    simp only [List.mem_cons, List.mem_singleton, List.not_mem_nil, or_false] at hf
    rcases hf with rfl | rfl | rfl | rfl | rfl | rfl | rfl
    exacts [by norm_num, by norm_num, by norm_num, by norm_num, by norm_num, by norm_num, prime_1131467]
  · decide
  · decide
  · intro f hf
    simp only [List.mem_cons, List.mem_singleton, List.not_mem_nil, or_false] at hf
    rcases hf with rfl | rfl | rfl | rfl | rfl | rfl | rfl
    all_goals decide

set_option maxRecDepth 100000 in
set_option exponentiation.threshold 1000 in
theorem prime_32791045829169480421 : Nat.Prime 32791045829169480421 := by
  apply lucas_cert 32791045829169480421 14 [2, 2, 3, 5, 79, 157, 157, 280658126417] (by norm_num) (by decide)
  · intro f hf
    simp only [List.mem_cons, List.mem_singleton, List.not_mem_nil, or_false] at hf
    rcases hf with rfl | rfl | rfl | rfl | rfl | rfl | rfl | rfl
    exacts [by norm_num, by norm_num, by norm_num, by norm_num, by norm_num, by norm_num, by norm_num, prime_280658126417]
  · decide
  · decide
  · intro f hf
    simp only [List.mem_cons, List.mem_singleton, List.not_mem_nil, or_false] at hf
    rcases hf with rfl | rfl | rfl | rfl | rfl | rfl | rfl | rfl
    all_goals decide

set_option maxRecDepth 100000 in
set_option exponentiation.threshold 1000 in
theorem prime_1441463 : Nat.Prime 1441463 := by
  apply lucas_cert 1441463 5 [2, 11, 65521] (by norm_num) (by decide)
  · intro f hf
    simp only [List.mem_cons, List.mem_singleton, List.not_mem_nil, or_false] at hf
    rcases hf with rfl | rfl | rfl
    exacts [by norm_num, by norm_num, by norm_num]
  · decide
  · decide
  · intro f hf
    simp only [List.mem_cons, List.mem_singleton, List.not_mem_nil, or_false] at hf
    rcases hf with rfl | rfl | rfl
    all_goals decide

set_option maxRecDepth 100000 in
set_option exponentiation.threshold 1000 in
theorem prime_327757 : Nat.Prime 327757 := by
  apply lucas_cert 327757 2 [2, 2, 3, 11, 13, 191] (by norm_num) (by decide)
  · intro f hf
    simp only [List.mem_cons, List.mem_singleton, List.not_mem_nil, or_false] at hf
    rcases hf with rfl | rfl | rfl | rfl | rfl | rfl
    exacts [by norm_num, by norm_num, by norm_num, by norm_num, by norm_num, by norm_num]
  · decide
  · decide
  · intro f hf
    simp only [List.mem_cons, List.mem_singleton, List.not_mem_nil, or_false] at hf
    rcases hf with rfl | rfl | rfl | rfl | rfl | rfl
    all_goals decide

set_option maxRecDepth 100000 in
set_option exponentiation.threshold 1000 in
theorem prime_1168399 : Nat.Prime 1168399 := by
  apply lucas_cert 1168399 11 [2, 3, 3, 3, 7, 11, 281] (by norm_num) (by decide)
  · intro f hf
    simp only [List.mem_cons, List.mem_singleton, List.not_mem_nil, or_false] at hf
    rcases hf with rfl | rfl | rfl | rfl | rfl | rfl | rfl
    exacts [by norm_num, by norm_num, by norm_num, by norm_num, by norm_num, by norm_num, by norm_num]
  · decide
  · decide
  · intro f hf
    simp only [List.mem_cons, List.mem_singleton, List.not_mem_nil, or_false] at hf
    rcases hf with rfl | rfl | rfl | rfl | rfl | rfl | rfl
    all_goals decide

set_option maxRecDepth 100000 in
set_option exponentiation.threshold 1000 in
theorem prime_364540489 : Nat.Prime 364540489 := by
  apply lucas_cert 364540489 14 [2, 2, 2, 3, 13, 1168399] (by norm_num) (by decide)
  · intro f hf
    simp only [List.mem_cons, List.mem_singleton, List.not_mem_nil, or_false] at hf
    rcases hf with rfl | rfl | rfl | rfl | rfl | rfl
    exacts [by norm_num, by norm_num, by norm_num, by norm_num, by norm_num, prime_1168399]
  · decide
  · decide
  · intro f hf
    simp only [List.mem_cons, List.mem_singleton, List.not_mem_nil, or_false] at hf
    rcases hf with rfl | rfl | rfl | rfl | rfl | rfl
    all_goals decide

set_option maxRecDepth 100000 in
set_option exponentiation.threshold 1000 in
theorem prime_25568869169379023 : Nat.Prime 25568869169379023 := by
  apply lucas_cert 25568869169379023 5 [2, 107, 327757, 364540489] (by norm_num) (by decide)
  · intro f hf
    simp only [List.mem_cons, List.mem_singleton, List.not_mem_nil, or_false] at hf
    rcases hf with rfl | rfl | rfl | rfl
    exacts [by norm_num, by norm_num, prime_327757, prime_364540489]
  · decide
  · decide
  · intro f hf
    simp only [List.mem_cons, List.mem_singleton, List.not_mem_nil, or_false] at hf
    rcases hf with rfl | rfl | rfl | rfl
    all_goals decide

set_option maxRecDepth 100000 in
set_option exponentiation.threshold 1000 in
theorem prime_120668439186004946820744827 : Nat.Prime 120668439186004946820744827 := by
  apply lucas_cert 120668439186004946820744827 2 [2, 1637, 1441463, 25568869169379023] (by norm_num) (by decide)
  · intro f hf
    simp only [List.mem_cons, List.mem_singleton, List.not_mem_nil, or_false] at hf
    rcases hf with rfl | rfl | rfl | rfl
    exacts [by norm_num, by norm_num, prime_1441463, prime_25568869169379023]
  · decide
  · decide
  · intro f hf
    simp only [List.mem_cons, List.mem_singleton, List.not_mem_nil, or_false] at hf
    rcases hf with rfl | rfl | rfl | rfl
    all_goals decide

set_option maxRecDepth 100000 in
set_option exponentiation.threshold 1000 in
theorem prime_505961 : Nat.Prime 505961 := by
  apply lucas_cert 505961 6 [2, 2, 2, 5, 7, 13, 139] (by norm_num) (by decide)
  · intro f hf
    simp only [List.mem_cons, List.mem_singleton, List.not_mem_nil, or_false] at hf
    rcases hf with rfl | rfl | rfl | rfl | rfl | rfl | rfl
    exacts [by norm_num, by norm_num, by norm_num, by norm_num, by norm_num, by norm_num, by norm_num]
  · decide
  · decide
  · intro f hf
    simp only [List.mem_cons, List.mem_singleton, List.not_mem_nil, or_false] at hf
    rcases hf with rfl | rfl | rfl | rfl | rfl | rfl | rfl
    all_goals decide

set_option maxRecDepth 100000 in
set_option exponentiation.threshold 1000 in
theorem prime_269029 : Nat.Prime 269029 := by
  apply lucas_cert 269029 2 [2, 2, 3, 3, 3, 47, 53] (by norm_num) (by decide)
  · intro f hf
    simp only [List.mem_cons, List.mem_singleton, List.not_mem_nil, or_false] at hf
    rcases hf with rfl | rfl | rfl | rfl | rfl | rfl | rfl
    exacts [by norm_num, by norm_num, by norm_num, by norm_num, by norm_num, by norm_num, by norm_num]
  · decide
  · decide
  · intro f hf
    simp only [List.mem_cons, List.mem_singleton, List.not_mem_nil, or_false] at hf
    rcases hf with rfl | rfl | rfl | rfl | rfl | rfl | rfl
    all_goals decide

set_option maxRecDepth 100000 in
set_option exponentiation.threshold 1000 in
theorem prime_15267933809 : Nat.Prime 15267933809 := by
  apply lucas_cert 15267933809 3 [2, 2, 2, 2, 3547, 269029] (by norm_num) (by decide)
  · intro f hf
    simp only [List.mem_cons, List.mem_singleton, List.not_mem_nil, or_false] at hf
    rcases hf with rfl | rfl | rfl | rfl | rfl | rfl
    exacts [by norm_num, by norm_num, by norm_num, by norm_num, by norm_num, prime_269029]
  · decide
  · decide
  · intro f hf
    simp only [List.mem_cons, List.mem_singleton, List.not_mem_nil, or_false] at hf
    rcases hf with rfl | rfl | rfl | rfl | rfl | rfl
    all_goals decide

set_option maxRecDepth 100000 in
set_option exponentiation.threshold 1000 in
theorem prime_763396690451 : Nat.Prime 763396690451 := by
  apply lucas_cert 763396690451 2 [2, 5, 5, 15267933809] (by norm_num) (by decide)
  · intro f hf
    simp only [List.mem_cons, List.mem_singleton, List.not_mem_nil, or_false] at hf
    rcases hf with rfl | rfl | rfl | rfl
    exacts [by norm_num, by norm_num, by norm_num, prime_15267933809]
  · decide
  · decide
  · intro f hf
    simp only [List.mem_cons, List.mem_singleton, List.not_mem_nil, or_false] at hf
    rcases hf with rfl | rfl | rfl | rfl
    all_goals decide

set_option maxRecDepth 100000 in
set_option exponentiation.threshold 1000 in
theorem prime_1962989340619741112505841216481 : Nat.Prime 1962989340619741112505841216481 := by
  apply lucas_cert 1962989340619741112505841216481 3 [2, 2, 2, 2, 2, 5, 467, 5749, 11831, 505961, 763396690451] (by norm_num) (by decide)
  · intro f hf
    simp only [List.mem_cons, List.mem_singleton, List.not_mem_nil, or_false] at hf
    rcases hf with rfl | rfl | rfl | rfl | rfl | rfl | rfl | rfl | rfl | rfl | rfl
    exacts [by norm_num, by norm_num, by norm_num, by norm_num, by norm_num, by norm_num, by norm_num, by norm_num, by norm_num, prime_505961, prime_763396690451]
  · decide
  · decide
  · intro f hf
    simp only [List.mem_cons, List.mem_singleton, List.not_mem_nil, or_false] at hf
    rcases hf with rfl | rfl | rfl | rfl | rfl | rfl | rfl | rfl | rfl | rfl | rfl
    all_goals decide

set_option maxRecDepth 100000 in
set_option exponentiation.threshold 1000 in
theorem prime_3144708923672825262234357628802563 : Nat.Prime 3144708923672825262234357628802563 := by
  apply lucas_cert 3144708923672825262234357628802563 2 [2, 3, 3, 89, 1962989340619741112505841216481] (by norm_num) (by decide)
  · intro f hf
    simp only [List.mem_cons, List.mem_singleton, List.not_mem_nil, or_false] at hf
    rcases hf with rfl | rfl | rfl | rfl | rfl
    exacts [by norm_num, by norm_num, by norm_num, by norm_num, prime_1962989340619741112505841216481]
  · decide
  · decide
  · intro f hf
    simp only [List.mem_cons, List.mem_singleton, List.not_mem_nil, or_false] at hf
    rcases hf with rfl | rfl | rfl | rfl | rfl
    all_goals decide

set_option maxRecDepth 100000 in
set_option exponentiation.threshold 1000 in
theorem prime_177659377159642898658544985703071619167472323213731482315320471353620402555753425819242393218834726520760848747217724673 : Nat.Prime 177659377159642898658544985703071619167472323213731482315320471353620402555753425819242393218834726520760848747217724673 := by
  apply lucas_cert 177659377159642898658544985703071619167472323213731482315320471353620402555753425819242393218834726520760848747217724673 10 [2, 2, 2, 2, 2, 2, 2, 2, 3, 11, 71, 2729, 6091, 15679, 9666960139, 9448133947481, 32791045829169480421, 120668439186004946820744827, 3144708923672825262234357628802563] (by norm_num) (by decide)
  · intro f hf
    simp only [List.mem_cons, List.mem_singleton, List.not_mem_nil, or_false] at hf
    rcases hf with rfl | rfl | rfl | rfl | rfl | rfl | rfl | rfl | rfl | rfl | rfl | rfl | rfl | rfl | rfl | rfl | rfl | rfl | rfl
    exacts [by norm_num, by norm_num, by norm_num, by norm_num, by norm_num, by norm_num, by norm_num, by norm_num, by norm_num, by norm_num, by norm_num, by norm_num, by norm_num, by norm_num, prime_9666960139, prime_9448133947481, prime_32791045829169480421, prime_120668439186004946820744827, prime_3144708923672825262234357628802563]
  · decide
  · decide
  · intro f hf
    simp only [List.mem_cons, List.mem_singleton, List.not_mem_nil, or_false] at hf
    rcases hf with rfl | rfl | rfl | rfl | rfl | rfl | rfl | rfl | rfl | rfl | rfl | rfl | rfl | rfl | rfl | rfl | rfl | rfl | rfl
    all_goals decide

set_option maxRecDepth 100000 in
set_option exponentiation.threshold 1000 in
theorem P_prime_num : Nat.Prime 2707685248164858261307045101702230179137145581421695874189921465443966120903931272499975005961073806735733604454495675614232241 := by
  apply lucas_cert 2707685248164858261307045101702230179137145581421695874189921465443966120903931272499975005961073806735733604454495675614232241 6 [2, 2, 2, 2, 5, 59, 3229, 177659377159642898658544985703071619167472323213731482315320471353620402555753425819242393218834726520760848747217724673] (by norm_num) (by decide)
  · intro f hf
    simp only [List.mem_cons, List.mem_singleton, List.not_mem_nil, or_false] at hf
    rcases hf with rfl | rfl | rfl | rfl | rfl | rfl | rfl | rfl
    exacts [by norm_num, by norm_num, by norm_num, by norm_num, by norm_num, by norm_num, by norm_num, prime_177659377159642898658544985703071619167472323213731482315320471353620402555753425819242393218834726520760848747217724673]
  · decide
  · decide
  · intro f hf
    simp only [List.mem_cons, List.mem_singleton, List.not_mem_nil, or_false] at hf
    rcases hf with rfl | rfl | rfl | rfl | rfl | rfl | rfl | rfl
    all_goals decide

theorem P_prime : Nat.Prime P := P_prime_num

instance : Fact (Nat.Prime P) := ⟨P_prime⟩

instance : Fact (2 < P) := ⟨by decide⟩

theorem cast_one_lt_ne {a : Nat} (ha : a < P) (h1 : a ≠ 1) : ((a : ZMod P)) ≠ 1 := by
  intro hc
  apply h1
  have : ((a : Nat) : ZMod P) = ((1 : Nat) : ZMod P) := by simpa using hc
  exact cast_inj_of_lt ha one_lt_P this

theorem pow2_pow_collect (C : ZMod P) (a b : Nat) :
    (C ^ 2 ^ a) ^ 2 ^ b = C ^ 2 ^ (a + b) := by
  rw [← pow_mul, ← pow_add]

theorem pow2_sq (C : ZMod P) (a : Nat) : C ^ 2 ^ a * C ^ 2 ^ a = C ^ 2 ^ (a + 1) := by
  rw [← pow_add]
  congr 1
  rw [pow_succ]
  omega

theorem pow2_exp_congr (T : ZMod P) {a b : Nat} (h : a = b) : T ^ 2 ^ a = T ^ 2 ^ b := by
  rw [h]

/-- The inner search of Tonelli-Shanks finds the least exponent i with
t^(2^i) = 1, when one exists below m. -/
theorem tsInner_finds (T : ZMod P) :
    ∀ fuel i t2i m, 1 ≤ i → t2i < P → (t2i : ZMod P) = T ^ 2 ^ (i - 1) →
      m ≤ fuel + i →
      (∃ j, i ≤ j ∧ j < m ∧ T ^ 2 ^ j = 1) →
      i ≤ tsInner fuel i t2i m ∧ tsInner fuel i t2i m < m ∧
        T ^ 2 ^ tsInner fuel i t2i m = 1 ∧
        ∀ jj, i ≤ jj → jj < tsInner fuel i t2i m → T ^ 2 ^ jj ≠ 1 := by
  intro fuel
  induction fuel with
  | zero =>
    intro i t2i m h1 hlt hcast hm hex
    obtain ⟨j, hij, hjm, _⟩ := hex
    omega
  | succ f ih =>
    intro i t2i m h1 hlt hcast hm hex
    obtain ⟨j, hij, hjm, hj1⟩ := hex
    have him : i < m := by omega
    unfold tsInner
    rw [if_pos him]
    have hcast2 : ((fe_mul t2i t2i : Nat) : ZMod P) = T ^ 2 ^ i := by
      rw [cast_fe_mul, hcast, pow2_sq]
      exact pow2_exp_congr T (by omega)
    by_cases ht2 : fe_mul t2i t2i = 1
    · rw [if_pos ht2]
      refine ⟨le_refl i, him, ?_, ?_⟩
      · rw [← hcast2, ht2]
        simp
      · intro jj hjj1 hjj2
        omega
    · rw [if_neg ht2]
      have hTi : T ^ 2 ^ i ≠ 1 := by
        rw [← hcast2]
        exact cast_one_lt_ne (fe_mul_lt _ _) ht2
      have hji : i + 1 ≤ j := by
        rcases Nat.eq_or_lt_of_le hij with hcase | hcase
        · exfalso; apply hTi; rw [hcase]; exact hj1
        · omega
      have hrec := ih (i + 1) (fe_mul t2i t2i) m (by omega) (fe_mul_lt _ _)
        (by rw [hcast2]; exact pow2_exp_congr T (by omega)) (by omega) ⟨j, hji, hjm, hj1⟩
      refine ⟨by omega, hrec.2.1, hrec.2.2.1, ?_⟩
      intro jj hjj1 hjj2
      rcases Nat.eq_or_lt_of_le hjj1 with hcase | hcase
      · rw [← hcase]; exact hTi
      · exact hrec.2.2.2 jj (by omega) hjj2

/-- Success of the Tonelli-Shanks outer loop: with the order invariants on
t and c (which need p prime), the loop always returns a value. -/
theorem tsLoop_succeeds :
    ∀ fuel r t c m, m ≤ fuel → 1 ≤ m → t < P → c < P →
      (t : ZMod P) ^ 2 ^ (m - 1) = 1 →
      (c : ZMod P) ^ 2 ^ (m - 1) = -1 →
      ∃ r2, tsLoop fuel r t c m = some r2 := by
  intro fuel
  induction fuel with
  | zero =>
    intro r t c m hfuel h1 _ _ _ _
    omega
  | succ f ih =>
    intro r t c m hfuel h1 ht hc hto hco
    unfold tsLoop
    by_cases ht1 : t = 1
    · rw [if_pos ht1]
      exact ⟨r, rfl⟩
    · rw [if_neg ht1]
      dsimp only
      have hT1 : (t : ZMod P) ≠ 1 := cast_one_lt_ne ht ht1
      have hm2 : 2 ≤ m := by
        rcases Nat.eq_or_lt_of_le h1 with hcase | hcase
        · exfalso
          apply hT1
          rw [← hto, ← hcase]
          simp
        · omega
      have hex : ∃ j, 1 ≤ j ∧ j < m ∧ (t : ZMod P) ^ 2 ^ j = 1 :=
        ⟨m - 1, by omega, by omega, hto⟩
      have hfind := tsInner_finds (t : ZMod P) (m + 1) 1 t m (le_refl 1) ht
        (by simp) (by omega) hex
      set i := tsInner (m + 1) 1 t m with hidef
      obtain ⟨hi1, him, hTi, hmin⟩ := hfind
      rw [if_neg (by omega)]
      -- the power T^(2^(i-1)) is a square root of 1 different from 1, so -1
      have hx2 : ((t : ZMod P) ^ 2 ^ (i - 1)) * ((t : ZMod P) ^ 2 ^ (i - 1)) = 1 := by
        rw [pow2_sq, pow2_exp_congr (t : ZMod P) (by omega : i - 1 + 1 = i), hTi]
      have hxne : (t : ZMod P) ^ 2 ^ (i - 1) ≠ 1 := by
        rcases Nat.eq_or_lt_of_le hi1 with hcase | hcase
        · rw [← hcase]
          simpa using hT1
        · exact hmin (i - 1) (by omega) (by omega)
      have hxneg : (t : ZMod P) ^ 2 ^ (i - 1) = -1 := by
        rcases mul_self_eq_one_iff.mp hx2 with hcase | hcase
        · exact absurd hcase hxne
        · exact hcase
      -- invariants for the recursive call
      have hbcast : ((sqPow c (m - i - 1) : Nat) : ZMod P) = (c : ZMod P) ^ 2 ^ (m - i - 1) :=
        cast_sqPow c (m - i - 1)
      have hb2cast : ((fe_mul (sqPow c (m - i - 1)) (sqPow c (m - i - 1)) : Nat) : ZMod P)
          = (c : ZMod P) ^ 2 ^ (m - i) := by
        rw [cast_fe_mul, hbcast, pow2_sq]
        exact pow2_exp_congr (c : ZMod P) (by omega)
      have hco2 : ((fe_mul (sqPow c (m - i - 1)) (sqPow c (m - i - 1)) : Nat) : ZMod P) ^ 2 ^ (i - 1) = -1 := by
        rw [hb2cast, pow2_pow_collect, pow2_exp_congr (c : ZMod P) (by omega : m - i + (i - 1) = m - 1), hco]
      have hto2 : ((fe_mul t (fe_mul (sqPow c (m - i - 1)) (sqPow c (m - i - 1))) : Nat) : ZMod P) ^ 2 ^ (i - 1) = 1 := by
        rw [cast_fe_mul, mul_pow, hxneg, hco2]
        ring
      exact ih _ _ _ i (by omega) hi1 (fe_mul_lt _ _) (fe_mul_lt _ _) hto2 hco2

theorem fe_sub_lt (a b : Nat) (ha : a < P) (hb : b < P) : fe_sub a b < P :=
  sub_mod_lt a b P ha hb

theorem cast_Pm1 : ((P - 1 : Nat) : ZMod P) = -1 := by
  rw [Nat.cast_sub (by decide : 1 ≤ P)]
  rw [ZMod.natCast_self]
  push_cast
  ring

theorem legendre_pow_eq_one {x : Nat} (h : legendre x = 1) :
    powMod x ((P - 1) / 2) P = 1 := by
  unfold legendre at h
  by_cases h0 : x = 0
  · rw [if_pos h0] at h
    cases h
  · rw [if_neg h0] at h
    dsimp only at h
    by_cases hr0 : powMod x ((P - 1) / 2) P = 0
    · rw [if_pos hr0] at h
      cases h
    · rw [if_neg hr0] at h
      by_cases hr1 : powMod x ((P - 1) / 2) P = 1
      · exact hr1
      · rw [if_neg hr1] at h
        cases h

theorem legendre_zero_ne_one : legendre 0 = 0 := by
  unfold legendre
  rw [if_pos rfl]

set_option maxRecDepth 40000 in
theorem c0_eval : powMod 3 ((P - 1) / 2) P = P - 1 := by decide

theorem Q0_mul8 : (P - 1) / 16 * 2 ^ 3 = (P - 1) / 2 := by decide

set_option maxRecDepth 40000 in
set_option exponentiation.threshold 1000 in
theorem half_Pm1_bound : (P - 1) / 2 < 2 ^ 512 := by decide

/-- Claim C7: Tonelli-Shanks square root: maps 0 to 0; rejects exactly the
Legendre -1 inputs; and on every quadratic residue (Legendre +1) returns a
value whose square is the input. -/
theorem sqrt_spec (x : Nat) (hx : x < P) :
    (x = 0 → fe_sqrt x = some 0) ∧
    (legendre x = -1 → fe_sqrt x = none) ∧
    (legendre x = 1 → ∃ r, fe_sqrt x = some r ∧ fe_mul r r = x) := by
  refine ⟨?_, fe_sqrt_nonresidue x, ?_⟩
  · intro h
    subst h
    rfl
  · intro hleg
    have h0 : x ≠ 0 := by
      intro h
      subst h
      rw [legendre_zero_ne_one] at hleg
      cases hleg
    have ht1 : ((fe_pow_big x ((P - 1) / 16) : Nat) : ZMod P) ^ 2 ^ (4 - 1) = 1 := by
      rw [cast_fe_pow _ _ Q0_bound, ← pow_mul, Q0_mul8]
      rw [← cast_powMod x ((P - 1) / 2) half_Pm1_bound]
      rw [legendre_pow_eq_one hleg]
      exact Nat.cast_one
    have hc1 : ((fe_pow_big 3 ((P - 1) / 16) : Nat) : ZMod P) ^ 2 ^ (4 - 1) = -1 := by
      rw [cast_fe_pow _ _ Q0_bound, ← pow_mul, Q0_mul8]
      rw [← cast_powMod 3 ((P - 1) / 2) half_Pm1_bound]
      rw [c0_eval]
      exact cast_Pm1
    have hsome := tsLoop_succeeds 5 (fe_pow_big x (((P - 1) / 16 + 1) / 2))
      (fe_pow_big x ((P - 1) / 16)) (fe_pow_big 3 ((P - 1) / 16)) 4
      (by omega) (by omega) (powMod_lt _ _ _ P_pos) (powMod_lt _ _ _ P_pos) ht1 hc1
    obtain ⟨r2, hr2⟩ := hsome
    have hfe : fe_sqrt x = some r2 := by
      unfold fe_sqrt
      rw [if_neg h0, if_neg (by simp [hleg]), tsSplit_eval, findZ_eval]
      dsimp only
      exact hr2
    have hprop := fe_sqrt_some x r2 hfe
    refine ⟨r2, hfe, ?_⟩
    apply cast_inj_of_lt (fe_mul_lt _ _) hx
    rw [cast_fe_mul, ← pow_two]
    exact hprop.1

set_option maxRecDepth 100000 in
/-- Witness for sqrt_spec at the residue 4. -/
theorem sqrt_spec_witness :
    4 < P ∧ legendre 4 = 1 ∧ ∃ r, fe_sqrt 4 = some r ∧ fe_mul r r = 4 :=
  ⟨by decide, by decide, (sqrt_spec 4 (by decide)).2.2 (by decide)⟩

theorem cast_ne_zero_of_lt {y : Nat} (hy : y < P) (hy0 : y ≠ 0) : (y : ZMod P) ≠ 0 := by
  intro hc
  apply hy0
  have : ((y : Nat) : ZMod P) = ((0 : Nat) : ZMod P) := by simpa using hc
  exact cast_inj_of_lt hy P_pos this

theorem cast_fe_inv_eq_inv (v : Nat) (hv : v < P) (hv0 : v ≠ 0) :
    ((fe_inv v : Nat) : ZMod P) = (v : ZMod P)⁻¹ := by
  rw [cast_fe_inv]
  have hvz := cast_ne_zero_of_lt hv hv0
  have hmul : (v : ZMod P) * (v : ZMod P) ^ (P - 2) = 1 := by
    rw [← pow_succ']
    have : P - 2 + 1 = P - 1 := by
      have := one_lt_P
      omega
    rw [this]
    exact ZMod.pow_card_sub_one_eq_one hvz
  exact eq_inv_of_mul_eq_one_right hmul

set_option maxRecDepth 40000 in
theorem two_mul_half_Pm1 : 2 * ((P - 1) / 2) = P - 1 := by decide

/-- If the embedded sqrt rejects a canonical input, that input has no square
root in GF(p). -/
theorem sqrt_none_not_square (y : Nat) (hy : y < P) (h : fe_sqrt y = none) :
    ¬ ∃ w : ZMod P, w ^ 2 = (y : ZMod P) := by
  rintro ⟨w, hw⟩
  have hy0 : y ≠ 0 := by
    intro h0
    subst h0
    rw [fe_sqrt_zero] at h
    cases h
  have hleg : legendre y ≠ 1 := by
    intro hl
    obtain ⟨r, hr, _⟩ := (sqrt_spec y hy).2.2 hl
    rw [hr] at h
    cases h
  apply hleg
  have hcy : (y : ZMod P) ≠ 0 := cast_ne_zero_of_lt hy hy0
  have hw0 : w ≠ 0 := by
    intro h0
    subst h0
    rw [← hw] at hcy
    simp at hcy
  have heuler : (y : ZMod P) ^ ((P - 1) / 2) = 1 := by
    rw [← hw, ← pow_mul, two_mul_half_Pm1]
    exact ZMod.pow_card_sub_one_eq_one hw0
  have hpm : powMod y ((P - 1) / 2) P = 1 := by
    apply cast_inj_of_lt (powMod_lt _ _ _ P_pos) one_lt_P
    rw [cast_powMod _ _ half_Pm1_bound, heuler]
    exact Nat.cast_one.symm
  unfold legendre
  rw [if_neg hy0]
  dsimp only
  rw [hpm]
  norm_num

set_option maxRecDepth 40000 in
theorem sqrt_m1_sq : fe_mul SQRT_M1 SQRT_M1 = P - 1 := by decide

theorem cast_sqrt_m1_sq : ((SQRT_M1 : Nat) : ZMod P) ^ 2 = -1 := by
  rw [pow_two, ← cast_fe_mul, sqrt_m1_sq, cast_Pm1]

theorem fe_sub_zero_one : fe_sub 0 1 = P - 1 := by decide

/-- Claim C8: sqrt_ratio(u, v) for nonzero v: every returned value r
satisfies r^2 = u/v in GF(p) (whether it came from the direct square root
or from the sqrt(-1)-rotated fallback), and a rejection happens only when
neither u/v nor -u/v is a square. -/
theorem sqrt_ratio_spec (u v : Nat) (hu : u < P) (hv : v < P) (hv0 : v ≠ 0) :
    (∀ r, sqrt_ratio u v = some r → (r : ZMod P) ^ 2 = (u : ZMod P) / (v : ZMod P)) ∧
    (sqrt_ratio u v = none →
      (¬ ∃ w : ZMod P, w ^ 2 = (u : ZMod P) / (v : ZMod P)) ∧
      (¬ ∃ w : ZMod P, w ^ 2 = -((u : ZMod P) / (v : ZMod P)))) := by
  have hxcast : ((fe_mul u (fe_inv v) : Nat) : ZMod P) = (u : ZMod P) / (v : ZMod P) := by
    rw [cast_fe_mul, cast_fe_inv_eq_inv v hv hv0, div_eq_mul_inv]
  have hxnegcast : ((fe_mul (fe_mul u (fe_inv v)) (fe_sub 0 1) : Nat) : ZMod P)
      = -((u : ZMod P) / (v : ZMod P)) := by
    rw [cast_fe_mul, hxcast, fe_sub_zero_one, cast_Pm1]
    ring
  unfold sqrt_ratio
  cases hs : fe_sqrt (fe_mul u (fe_inv v)) with
  | some r0 =>
    constructor
    · intro r hr
      simp only [hs] at hr
      cases hr
      have := fe_sqrt_some _ _ hs
      rw [hxcast] at this
      exact this.1
    · intro hnone
      simp only [hs] at hnone
      cases hnone
  | none =>
    simp only [hs]
    cases hs2 : fe_sqrt (fe_mul (fe_mul u (fe_inv v)) (fe_sub 0 1)) with
    | some r2 =>
      constructor
      · intro r hr
        simp only [hs2] at hr
        cases hr
        have hprop := fe_sqrt_some _ _ hs2
        rw [hxnegcast] at hprop
        rw [cast_fe_mul, mul_pow, cast_sqrt_m1_sq, hprop.1]
        ring
      · intro hnone
        simp only [hs2] at hnone
        cases hnone
    | none =>
      simp only [hs2]
      constructor
      · intro r hr
        cases hr
      · intro _
        constructor
        · have := sqrt_none_not_square _ (fe_mul_lt _ _) hs
          rw [hxcast] at this
          exact this
        · have := sqrt_none_not_square _ (fe_mul_lt _ _) hs2
          rw [hxnegcast] at this
          exact this

set_option maxRecDepth 100000 in
/-- Witness for sqrt_ratio_spec at u = 4, v = 1, where the returned root is
p - 2. -/
theorem sqrt_ratio_spec_witness :
    4 < P ∧ 1 < P ∧ (1 : Nat) ≠ 0 ∧
      ((P - 2 : Nat) : ZMod P) ^ 2 = ((4 : Nat) : ZMod P) / ((1 : Nat) : ZMod P) :=
  ⟨by decide, by decide, by decide,
    (sqrt_ratio_spec 4 1 (by decide) (by decide) (by decide)).1 (P - 2) (by decide)⟩

theorem cast_onCurve {x y : Nat} (h : onCurve x y) :
    (EDW_A : ZMod P) * (x : ZMod P) ^ 2 + (y : ZMod P) ^ 2 =
      1 + (EDW_D : ZMod P) * (x : ZMod P) ^ 2 * (y : ZMod P) ^ 2 := by
  have := congrArg (fun n : Nat => (n : ZMod P)) h
  simp only [cast_fe_add, cast_fe_mul] at this
  rw [pow_two, pow_two]
  rw [Nat.cast_one] at this
  calc (EDW_A : ZMod P) * ((x : ZMod P) * x) + (y : ZMod P) * y = _ := this
    _ = 1 + (EDW_D : ZMod P) * ((x : ZMod P) * x) * ((y : ZMod P) * y) := by ring

set_option maxRecDepth 40000 in
theorem ad_nonresidue : powMod (fe_mul EDW_A EDW_D) ((P - 1) / 2) P = P - 1 := by decide

theorem four_half_Pm1 : 4 * ((P - 1) / 2) = 2 * (P - 1) := by decide

/-- On the curve, 1 + d*x^2*y^2 never vanishes (equivalently x^4 = 1/(a*d)
has no solution, because a*d is a quadratic non-residue). -/
theorem den_add_ne_zero {x y : Nat} (hcv : onCurve x y) :
    (1 : ZMod P) + (EDW_D : ZMod P) * (x : ZMod P) ^ 2 * (y : ZMod P) ^ 2 ≠ 0 := by
  intro hD0
  have hcurve := cast_onCurve hcv
  have hsum : (EDW_A : ZMod P) * (x : ZMod P) ^ 2 + (y : ZMod P) ^ 2 = 0 := by
    rw [hcurve, hD0]
  by_cases hx0 : (x : ZMod P) = 0
  · rw [hx0] at hD0
    simp at hD0
  · have key : (EDW_A : ZMod P) * (EDW_D : ZMod P) * (x : ZMod P) ^ 4 = 1 := by
      linear_combination (-1 : ZMod P) * hD0 + (EDW_D : ZMod P) * (x : ZMod P) ^ 2 * hsum
    have had : (EDW_A : ZMod P) * (EDW_D : ZMod P) = ((x : ZMod P) ^ 4)⁻¹ := by
      apply eq_inv_of_mul_eq_one_left
      linear_combination key
    have hxinv : ((x : ZMod P))⁻¹ ≠ 0 := inv_ne_zero hx0
    have hone : ((EDW_A : ZMod P) * (EDW_D : ZMod P)) ^ ((P - 1) / 2) = 1 := by
      rw [had, ← inv_pow, ← pow_mul, four_half_Pm1]
      rw [mul_comm 2 (P - 1), pow_mul]
      rw [ZMod.pow_card_sub_one_eq_one hxinv]
      norm_num
    have hneg : ((EDW_A : ZMod P) * (EDW_D : ZMod P)) ^ ((P - 1) / 2) = -1 := by
      rw [← cast_fe_mul, ← cast_powMod _ _ half_Pm1_bound, ad_nonresidue, cast_Pm1]
    rw [hone] at hneg
    exact ZMod.neg_one_ne_one hneg.symm

/-- Claim C9: the neutral element has two structurally distinct
representations which the derived equality distinguishes: scalar
multiplication by zero yields the Infinity variant, adding an affine
on-curve point to its negation yields the Affine(0, 1) variant, the two
variants are unequal, and the subgroup check of from_edwards_checked
accepts either variant as the identity. -/
theorem identity_two_reps (x y : Nat) (hx : x < P) (hy : y < P) (hcv : onCurve x y) :
    (∀ Q : EdwardsPoint, mulScalar Q 0 = EdwardsPoint.infinity) ∧
    point_add (.affine x y) (point_neg (.affine x y)) = .affine 0 1 ∧
    EdwardsPoint.infinity ≠ EdwardsPoint.affine 0 1 ∧
    is_identity_point .infinity = true ∧ is_identity_point (.affine 0 1) = true := by
  refine ⟨fun Q => rfl, ?_, by decide, rfl, by decide⟩
  have hnum_x : fe_add (fe_mul x y) (fe_mul y (fe_neg x)) = 0 := by
    apply cast_inj_of_lt (fe_add_lt _ _) P_pos
    rw [cast_fe_add, cast_fe_mul, cast_fe_mul, cast_fe_neg x hx.le]
    push_cast
    ring
  have hx3 : fe_mul (fe_add (fe_mul x y) (fe_mul y (fe_neg x)))
      (fe_inv (fe_add 1 (fe_mul (fe_mul EDW_D (fe_mul x (fe_neg x))) (fe_mul y y)))) = 0 := by
    rw [hnum_x]
    unfold fe_mul
    simp
  have hDcast : ((fe_sub 1 (fe_mul (fe_mul EDW_D (fe_mul x (fe_neg x))) (fe_mul y y)) : Nat) : ZMod P)
      = 1 + (EDW_D : ZMod P) * (x : ZMod P) ^ 2 * (y : ZMod P) ^ 2 := by
    rw [cast_fe_sub _ _ (le_trans (fe_mul_lt _ _).le (Nat.le_add_left _ _))]
    rw [cast_fe_mul, cast_fe_mul, cast_fe_mul, cast_fe_mul, cast_fe_neg x hx.le]
    push_cast
    ring
  have hDne : fe_sub 1 (fe_mul (fe_mul EDW_D (fe_mul x (fe_neg x))) (fe_mul y y)) ≠ 0 := by
    intro h0
    apply den_add_ne_zero hcv
    rw [← hDcast, h0]
    exact Nat.cast_zero
  have hNcast : ((fe_sub (fe_mul y y) (fe_mul EDW_A (fe_mul x (fe_neg x))) : Nat) : ZMod P)
      = 1 + (EDW_D : ZMod P) * (x : ZMod P) ^ 2 * (y : ZMod P) ^ 2 := by
    rw [cast_fe_sub _ _ (le_trans (fe_mul_lt _ _).le (Nat.le_add_left _ _))]
    rw [cast_fe_mul, cast_fe_mul, cast_fe_mul, cast_fe_neg x hx.le]
    have hcurve := cast_onCurve hcv
    push_cast
    calc (y : ZMod P) * y - (EDW_A : ZMod P) * ((x : ZMod P) * -(x : ZMod P))
        = (EDW_A : ZMod P) * (x : ZMod P) ^ 2 + (y : ZMod P) ^ 2 := by ring
    _ = 1 + (EDW_D : ZMod P) * (x : ZMod P) ^ 2 * (y : ZMod P) ^ 2 := hcurve
  have hy3 : fe_mul (fe_sub (fe_mul y y) (fe_mul EDW_A (fe_mul x (fe_neg x))))
      (fe_inv (fe_sub 1 (fe_mul (fe_mul EDW_D (fe_mul x (fe_neg x))) (fe_mul y y)))) = 1 := by
    apply cast_inj_of_lt (fe_mul_lt _ _) one_lt_P
    rw [cast_fe_mul, hNcast]
    rw [cast_fe_inv_eq_inv _ (fe_sub_lt _ _ one_lt_P (fe_mul_lt _ _)) hDne, hDcast]
    rw [Nat.cast_one]
    exact mul_inv_cancel₀ (den_add_ne_zero hcv)
  show EdwardsPoint.affine
      (fe_mul (fe_add (fe_mul x y) (fe_mul y (fe_neg x)))
        (fe_inv (fe_add 1 (fe_mul (fe_mul EDW_D (fe_mul x (fe_neg x))) (fe_mul y y)))))
      (fe_mul (fe_sub (fe_mul y y) (fe_mul EDW_A (fe_mul x (fe_neg x))))
        (fe_inv (fe_sub 1 (fe_mul (fe_mul EDW_D (fe_mul x (fe_neg x))) (fe_mul y y)))))
      = EdwardsPoint.affine 0 1
  rw [hx3, hy3]

set_option maxRecDepth 100000 in
/-- Witness for identity_two_reps at the base point G. -/
theorem identity_two_reps_witness :
    Gx < P ∧ Gy < P ∧ onCurve Gx Gy ∧
      point_add (.affine Gx Gy) (point_neg (.affine Gx Gy)) = .affine 0 1 :=
  ⟨by decide, by decide, by decide,
    (identity_two_reps Gx Gy (by decide) (by decide) (by decide)).2.1⟩

/-! ## Byte-codec lemmas for the encoding round-trip -/

theorem toLEBytes_length : ∀ len n, (toLEBytes len n).length = len := by
  intro len
  induction len with
  | zero => intro n; rfl
  | succ l ih =>
    intro n
    show (n % 256 :: toLEBytes l (n / 256)).length = l + 1
    simp [ih]

theorem toLEBytes_append :
    ∀ len n, toLEBytes (len + 1) n = toLEBytes len n ++ [n / 256 ^ len % 256] := by
  intro len
  induction len with
  | zero =>
    intro n
    simp [toLEBytes]
  | succ l ih =>
    intro n
    calc toLEBytes (l + 1 + 1) n = n % 256 :: toLEBytes (l + 1) (n / 256) := rfl
      _ = n % 256 :: (toLEBytes l (n / 256) ++ [n / 256 / 256 ^ l % 256]) := by rw [ih]
      _ = (n % 256 :: toLEBytes l (n / 256)) ++ [n / 256 / 256 ^ l % 256] := rfl
      _ = toLEBytes (l + 1) n ++ [n / 256 ^ (l + 1) % 256] := by
          rw [Nat.div_div_eq_div_mul, ← pow_succ']
          rfl

theorem fromLEBytes_append_single :
    ∀ (l : List Nat) (v : Nat),
      fromLEBytes (l ++ [v]) = fromLEBytes l + 256 ^ l.length * (v % 256) := by
  intro l
  induction l with
  | nil =>
    intro v
    show v % 256 + 256 * 0 = 0 + 1 * (v % 256)
    omega
  | cons b t ih =>
    intro v
    show b % 256 + 256 * fromLEBytes (t ++ [v]) = _
    rw [ih]
    show _ = b % 256 + 256 * fromLEBytes t + 256 ^ (t.length + 1) * (v % 256)
    rw [pow_succ']
    ring

theorem fromLEBytes_toLEBytes : ∀ len n, fromLEBytes (toLEBytes len n) = n % 256 ^ len := by
  intro len
  induction len with
  | zero =>
    intro n
    show 0 = n % 1
    omega
  | succ l ih =>
    intro n
    show n % 256 % 256 + 256 * fromLEBytes (toLEBytes l (n / 256)) = n % 256 ^ (l + 1)
    rw [ih, Nat.mod_mod_of_dvd _ (dvd_refl 256)]
    rw [pow_succ']
    have hsplit := Nat.div_add_mod (n % (256 * 256 ^ l)) 256
    rw [Nat.mod_mul_right_div_self, Nat.mod_mod_of_dvd n (dvd_mul_right 256 (256 ^ l))] at hsplit
    omega

theorem set_append_last : ∀ (l : List Nat) (w v : Nat), (l ++ [w]).set l.length v = l ++ [v] := by
  intro l
  induction l with
  | nil => intro w v; rfl
  | cons b t ih =>
    intro w v
    show b :: (t ++ [w]).set t.length v = b :: (t ++ [v])
    rw [ih]

theorem getD_append_last : ∀ (l : List Nat) (w : Nat), (l ++ [w]).getD l.length 0 = w := by
  intro l
  induction l with
  | nil => intro w; rfl
  | cons b t ih =>
    intro w
    show (t ++ [w]).getD t.length 0 = w
    exact ih w

theorem P_lt_2pow420 : P < 16 * 256 ^ 52 := by decide

theorem EDW_A_lt : EDW_A < P := by decide

theorem EDW_D_lt : EDW_D < P := by decide

theorem EDW_A_ne_EDW_D : EDW_A ≠ EDW_D := by decide

theorem P_odd : P % 2 = 1 := by decide

/-- The y-recovery denominator 1 - d*x^2 never vanishes on the curve
(it would force a = d). -/
theorem den_sub_ne_zero {x y : Nat} (hcv : onCurve x y) :
    (1 : ZMod P) - (EDW_D : ZMod P) * (x : ZMod P) ^ 2 ≠ 0 := by
  intro h0
  have hcurve := cast_onCurve hcv
  have hdx : (EDW_D : ZMod P) * (x : ZMod P) ^ 2 = 1 := by linear_combination -h0
  have hax : (EDW_A : ZMod P) * (x : ZMod P) ^ 2 = 1 := by
    linear_combination hcurve + (y : ZMod P) ^ 2 * hdx
  have hxne : (x : ZMod P) ^ 2 ≠ 0 := by
    intro hx0
    rw [hx0, mul_zero] at hax
    exact one_ne_zero hax.symm
  have : (EDW_A : ZMod P) = (EDW_D : ZMod P) := by
    rw [eq_inv_of_mul_eq_one_left hax, eq_inv_of_mul_eq_one_left hdx]
  exact EDW_A_ne_EDW_D (cast_inj_of_lt EDW_A_lt EDW_D_lt this)

set_option maxRecDepth 100000 in
set_option maxHeartbeats 2000000 in
/-- Claim C6, main lemma: the Edwards-style decode branch inverts encode on
accepted on-curve points with canonical coordinates. -/
theorem decodeEdwards_of_encode (x y : Nat) (hx : x < P) (hy : y < P) (hcv : onCurve x y)
    (hacc : from_edwards_checked (.affine x y) = some ⟨.affine x y⟩) :
    decodeEdwardsBranch (rencode ⟨.affine x y⟩) = some ⟨.affine x y⟩  := by
  -- the encoded byte string
  have hb16 : x / 256 ^ 52 < 16 :=
    Nat.div_lt_of_lt_mul (lt_of_lt_of_le hx (by decide : P ≤ 256 ^ 52 * 16))
  have hb256 : x / 256 ^ 52 % 256 = x / 256 ^ 52 := Nat.mod_eq_of_lt (by omega)
  have hlen : (toLEBytes 52 x).length = 52 := toLEBytes_length 52 x
  have hts : toLEBytes 53 x = toLEBytes 52 x ++ [x / 256 ^ 52 % 256] := toLEBytes_append 52 x
  have hgetD : ∀ w : Nat, (toLEBytes 52 x ++ [w]).getD 52 0 = w := by
    intro w
    have := getD_append_last (toLEBytes 52 x) w
    rwa [hlen] at this
  have hset : ∀ w v : Nat, (toLEBytes 52 x ++ [w]).set 52 v = toLEBytes 52 x ++ [v] := by
    intro w v
    have := set_append_last (toLEBytes 52 x) w v
    rwa [hlen] at this
  have hrenc : rencode ⟨.affine x y⟩
      = toLEBytes 52 x ++ [x / 256 ^ 52 + 128 * (y % 2)] := by
    unfold rencode coords
    rw [hts, hgetD, hset, hb256]
    have h128 : x / 256 ^ 52 % 128 = x / 256 ^ 52 := Nat.mod_eq_of_lt (by omega)
    rw [h128]
    rfl
  rw [hrenc]
  -- the decode side recovers x and the sign bit
  have hv128 : (x / 256 ^ 52 + 128 * (y % 2)) % 128 = x / 256 ^ 52 := by omega
  have hvdiv : (x / 256 ^ 52 + 128 * (y % 2)) / 128 % 2 = y % 2 := by omega
  have hfrom : fromLEBytes (toLEBytes 52 x ++ [x / 256 ^ 52]) = x := by
    rw [fromLEBytes_append_single, fromLEBytes_toLEBytes, hlen, hb256]
    exact Nat.mod_add_div x (256 ^ 52)
  unfold decodeEdwardsBranch
  rw [hgetD, hv128, hset, hfrom, hvdiv]
  rw [if_pos hx]
  -- the y^2 recovery
  have hdcast : ((fe_sub 1 (fe_mul EDW_D (fe_mul x x)) : Nat) : ZMod P)
      = 1 - (EDW_D : ZMod P) * (x : ZMod P) ^ 2 := by
    rw [cast_fe_sub _ _ (le_trans (fe_mul_lt _ _).le (Nat.le_add_left _ _))]
    rw [cast_fe_mul, cast_fe_mul]
    push_cast
    ring
  have hden_ne : fe_sub 1 (fe_mul EDW_D (fe_mul x x)) ≠ 0 := by
    intro h0
    apply den_sub_ne_zero hcv
    rw [← hdcast, h0]
    exact Nat.cast_zero
  unfold decodeEdwardsY
  rw [if_pos hden_ne]
  have hncast : ((fe_sub 1 (fe_mul EDW_A (fe_mul x x)) : Nat) : ZMod P)
      = 1 - (EDW_A : ZMod P) * (x : ZMod P) ^ 2 := by
    rw [cast_fe_sub _ _ (le_trans (fe_mul_lt _ _).le (Nat.le_add_left _ _))]
    rw [cast_fe_mul, cast_fe_mul]
    push_cast
    ring
  have hbne : (1 : ZMod P) - (EDW_D : ZMod P) * (x : ZMod P) ^ 2 ≠ 0 := den_sub_ne_zero hcv
  have hy2cast : ((fe_mul (fe_sub 1 (fe_mul EDW_A (fe_mul x x)))
      (fe_inv (fe_sub 1 (fe_mul EDW_D (fe_mul x x)))) : Nat) : ZMod P) = (y : ZMod P) ^ 2 := by
    rw [cast_fe_mul, cast_fe_inv_eq_inv _ (fe_sub_lt _ _ one_lt_P (fe_mul_lt _ _)) hden_ne]
    rw [hncast, hdcast]
    have hcurve := cast_onCurve hcv
    have hfact : (1 : ZMod P) - (EDW_A : ZMod P) * (x : ZMod P) ^ 2
        = (y : ZMod P) ^ 2 * (1 - (EDW_D : ZMod P) * (x : ZMod P) ^ 2) := by
      linear_combination (-1 : ZMod P) * hcurve
    rw [hfact, mul_assoc, mul_inv_cancel₀ hbne, mul_one]
  -- find the square root and fix its sign
  by_cases hy0 : y = 0
  · subst hy0
    have hzero : fe_mul (fe_sub 1 (fe_mul EDW_A (fe_mul x x)))
        (fe_inv (fe_sub 1 (fe_mul EDW_D (fe_mul x x)))) = 0 := by
      apply cast_inj_of_lt (fe_mul_lt _ _) P_pos
      rw [hy2cast]
      simp
    rw [hzero, fe_sqrt_zero]
    show from_edwards_checked (.affine x (if fe_parity 0 ≠ 0 % 2 then fe_neg 0 else 0))
      = some ⟨.affine x 0⟩
    rw [if_neg (by decide)]
    exact hacc
  · have hybar : (y : ZMod P) ≠ 0 := cast_ne_zero_of_lt hy hy0
    have hy2ne : fe_mul (fe_sub 1 (fe_mul EDW_A (fe_mul x x)))
        (fe_inv (fe_sub 1 (fe_mul EDW_D (fe_mul x x)))) ≠ 0 := by
      intro h0
      apply hybar
      have h2 : (y : ZMod P) ^ 2 = 0 := by
        rw [← hy2cast, h0]
        exact Nat.cast_zero
      exact pow_eq_zero_iff (by norm_num) |>.mp h2
    have hpowy : powMod (fe_mul (fe_sub 1 (fe_mul EDW_A (fe_mul x x)))
        (fe_inv (fe_sub 1 (fe_mul EDW_D (fe_mul x x))))) ((P - 1) / 2) P = 1 := by
      apply cast_inj_of_lt (powMod_lt _ _ _ P_pos) one_lt_P
      rw [cast_powMod _ _ half_Pm1_bound, hy2cast]
      rw [← pow_mul, two_mul_half_Pm1]
      rw [ZMod.pow_card_sub_one_eq_one hybar]
      exact Nat.cast_one.symm
    have hleg : legendre (fe_mul (fe_sub 1 (fe_mul EDW_A (fe_mul x x)))
        (fe_inv (fe_sub 1 (fe_mul EDW_D (fe_mul x x))))) = 1 := by
      unfold legendre
      rw [if_neg hy2ne]
      dsimp only
      rw [hpowy]
      norm_num
    obtain ⟨r, hr, hrr⟩ := (sqrt_spec _ (fe_mul_lt _ _)).2.2 hleg
    rw [hr]
    show from_edwards_checked (.affine x (if fe_parity r ≠ y % 2 then fe_neg r else r))
      = some ⟨.affine x y⟩
    have hrlt : r < P := (fe_sqrt_some _ _ hr).2
    have hrsq : (r : ZMod P) ^ 2 = (y : ZMod P) ^ 2 := by
      rw [(fe_sqrt_some _ _ hr).1, hy2cast]
    have hdich : (r : ZMod P) = (y : ZMod P) ∨ (r : ZMod P) = -(y : ZMod P) := by
      have hz : ((r : ZMod P) - (y : ZMod P)) * ((r : ZMod P) + (y : ZMod P)) = 0 := by
        linear_combination hrsq
      rcases mul_eq_zero.mp hz with hcase | hcase
      · left; linear_combination hcase
      · right; linear_combination hcase
    rcases hdich with hcase | hcase
    · have hry : r = y := cast_inj_of_lt hrlt hy hcase
      subst hry
      rw [if_neg (by simp [fe_parity])]
      exact hacc
    · have hcastPy : ((P - y : Nat) : ZMod P) = -(y : ZMod P) := by
        rw [Nat.cast_sub hy.le, ZMod.natCast_self]
        ring
      have hrPy : r = P - y := by
        apply cast_inj_of_lt hrlt (by omega)
        rw [hcase, hcastPy]
      subst hrPy
      have hPodd := P_odd
      have hpar : fe_parity (P - y) ≠ y % 2 := by
        unfold fe_parity
        omega
      rw [if_pos hpar]
      have hnegPy : fe_neg (P - y) = y := by
        unfold fe_neg sub_mod
        rw [if_pos (by omega : P - y ≤ P)]
        omega
      rw [hnegPy]
      exact hacc

/-- Claim C6: decode inverts encode on accepted prime-order points, and the
encoding is a 53-byte deterministic function of the point. -/
theorem encode_decode_roundtrip (x y : Nat) (hx : x < P) (hy : y < P) (hcv : onCurve x y)
    (hacc : from_edwards_checked (.affine x y) = some ⟨.affine x y⟩) :
    rdecode (rencode ⟨.affine x y⟩) = .ok ⟨.affine x y⟩ ∧
      (rencode ⟨.affine x y⟩).length = 53 := by
  constructor
  · unfold rdecode
    rw [decodeEdwards_of_encode x y hx hy hcv hacc]
  · unfold rencode
    rw [List.length_set]
    exact toLEBytes_length 53 _

theorem stepN_add (a b : Nat) (st : EdwardsPoint × EdwardsPoint × Nat) :
    stepN (a + b) st = stepN b (stepN a st) := by
  induction a generalizing st with
  | zero =>
    rw [Nat.zero_add]
    rfl
  | succ a ih =>
    rw [show a + 1 + b = (a + b) + 1 from by omega]
    exact ih _

theorem mulScalarF_chunk :
    ∀ k f res temp s, 2 ^ k ≤ s →
      mulScalarF (f + k) res temp s
        = mulScalarF f (stepN k (res, temp, s)).1 (stepN k (res, temp, s)).2.1
            (stepN k (res, temp, s)).2.2 := by
  intro k
  induction k with
  | zero => intro f res temp s _; rfl
  | succ k ih =>
    intro f res temp s hs
    have hs0 : s ≠ 0 := by
      intro h
      rw [h] at hs
      exact absurd hs (by simp [Nat.pos_pow_of_pos])
    have hs2 : 2 ^ k ≤ s / 2 := by
      rw [Nat.le_div_iff_mul_le (by norm_num)]
      calc 2 ^ k * 2 = 2 ^ (k + 1) := by rw [pow_succ]
        _ ≤ s := hs
    show mulScalarF (f + k + 1) res temp s = _
    rw [show f + k + 1 = (f + k) + 1 from rfl]
    rw [mulScalarF]
    rw [if_neg hs0]
    rw [ih f _ _ _ hs2]
    rfl

set_option maxRecDepth 2000000 in
set_option maxHeartbeats 1000000 in
theorem gStep0 : stepN 16 (EdwardsPoint.infinity, EdwardsPoint.affine 2554519045303036994902077297242990796196199161457630080356703041833906288977089421513471756737913123939108844302244613830350009 1554004282195909523747673681974014268960308454695342458183393593582942692590987497223833263666951454840260505456918987028153736, 338460656020607282663380637712778772392143197677711984273740183501508577674026655281164768623743539442603492250355597371718719) = (EdwardsPoint.affine 1373654195906552306970267374660111508220802541609897849150346971065711388655015760189520468391325360671845596025362893831166032 1017767960217140514605862108370452219171371221512058194250239054459493706265942596527289743221679188824611323797265321032310282, EdwardsPoint.affine 598567261093216541261029485775125287820575495366586094245693581257859310958744879804685840715036416899484413737912279238674357 1810846062686592999960338912274425741022956738851681955058684892760267697292185245588818253841392996942559380696897993773937452, 5164499756173817179311838344006023748659411585658447025661318717979562037262369617937694833736321097451835514074029500911) := by decide

set_option maxRecDepth 2000000 in
set_option maxHeartbeats 1000000 in
theorem gStep1 : stepN 16 (EdwardsPoint.affine 1373654195906552306970267374660111508220802541609897849150346971065711388655015760189520468391325360671845596025362893831166032 1017767960217140514605862108370452219171371221512058194250239054459493706265942596527289743221679188824611323797265321032310282, EdwardsPoint.affine 598567261093216541261029485775125287820575495366586094245693581257859310958744879804685840715036416899484413737912279238674357 1810846062686592999960338912274425741022956738851681955058684892760267697292185245588818253841392996942559380696897993773937452, 5164499756173817179311838344006023748659411585658447025661318717979562037262369617937694833736321097451835514074029500911) = (EdwardsPoint.affine 465393034409975987590554055695475850601081938866352522873117494369272631701369450916134309404060523237652957009814450504199686 682147839756536708570133508947147434872264593073241678341906854645570124080807384128731969153003635258748721053062368805220469, EdwardsPoint.affine 1576514444994335454873666264771578963886528177260340381600711794053722857654742107614032473231839130360586426394452426844500843 1175097426366931667639570903306447673453856220671933369325713633269762124809548357645705544076435691702931223544178417821713835, 78804012392788958424558080200287227610159478540930893335896586883233063312719262969020001735478532370786064362701866) := by decide

set_option maxRecDepth 2000000 in
set_option maxHeartbeats 1000000 in
theorem gStep2 : stepN 16 (EdwardsPoint.affine 465393034409975987590554055695475850601081938866352522873117494369272631701369450916134309404060523237652957009814450504199686 682147839756536708570133508947147434872264593073241678341906854645570124080807384128731969153003635258748721053062368805220469, EdwardsPoint.affine 1576514444994335454873666264771578963886528177260340381600711794053722857654742107614032473231839130360586426394452426844500843 1175097426366931667639570903306447673453856220671933369325713633269762124809548357645705544076435691702931223544178417821713835, 78804012392788958424558080200287227610159478540930893335896586883233063312719262969020001735478532370786064362701866) = (EdwardsPoint.affine 1682311836235610140972040472921598113930578958902660181190757333642919751277119423272867996614174269105589681365778744424684018 2447245940798864124477081835426897866215323967377739041892626455118781866913923324199113388013835193318588459548184439955464330, EdwardsPoint.affine 1510071678071667868263524665778370350078161969391376756691219880793144383301330321948001952034623331748777130743285206558437026 458596993603418559285479564034702638262485245244227422397654783165860973260655435731054475789834253592499781122222593700481782, 1202453802380202612679414065556140558016349465041059773802132978564957631114490706924743678825050847942902593425) := by decide

set_option maxRecDepth 2000000 in
set_option maxHeartbeats 1000000 in
theorem gStep3 : stepN 16 (EdwardsPoint.affine 1682311836235610140972040472921598113930578958902660181190757333642919751277119423272867996614174269105589681365778744424684018 2447245940798864124477081835426897866215323967377739041892626455118781866913923324199113388013835193318588459548184439955464330, EdwardsPoint.affine 1510071678071667868263524665778370350078161969391376756691219880793144383301330321948001952034623331748777130743285206558437026 458596993603418559285479564034702638262485245244227422397654783165860973260655435731054475789834253592499781122222593700481782, 1202453802380202612679414065556140558016349465041059773802132978564957631114490706924743678825050847942902593425) = (EdwardsPoint.affine 393385998148306040702492031510523562326423325781718869247265810093217185182865155427707625119571882518378235322051605415223934 2233492605237390149138387241320133610911173127771388035917502078888050524181616213972957675014134587168665260457713392522827225, EdwardsPoint.affine 798276039702737096676473839099953229099238403226893374706666857407750241878531861818207440589551573254172009977830694168568722 2375310861993990016241779396481091293475737864196117600123498331914259215105537141845723937572096309827982156909704020540310936, 18347988927920572092886567162416695526372519913346248989900710732497522447425700484081171857071698729597512) := by decide

set_option maxRecDepth 2000000 in
set_option maxHeartbeats 1000000 in
theorem gStep4 : stepN 16 (EdwardsPoint.affine 393385998148306040702492031510523562326423325781718869247265810093217185182865155427707625119571882518378235322051605415223934 2233492605237390149138387241320133610911173127771388035917502078888050524181616213972957675014134587168665260457713392522827225, EdwardsPoint.affine 798276039702737096676473839099953229099238403226893374706666857407750241878531861818207440589551573254172009977830694168568722 2375310861993990016241779396481091293475737864196117600123498331914259215105537141845723937572096309827982156909704020540310936, 18347988927920572092886567162416695526372519913346248989900710732497522447425700484081171857071698729597512) = (EdwardsPoint.affine 2703644891088775716026699338926094727237785655194704181054852772690468488436611633467583568290759316382208207678408596999851858 1066068156470049438626724296707419947106957406163548423620553580265661976081174315597692164904890896870587958314795335579797838, EdwardsPoint.affine 1246315246662312531195856465406891405094614660794277010846724728904865847725650728622611221675657580545040485358000782214359540 689510758816478408262598840800827210220152600985790850125104656307129389964108013496409548880732704652496632375221671144146474, 279968092772225526319680285071055534765205687154331191862498637886009558829127509827898740494868449853) := by decide

set_option maxRecDepth 2000000 in
set_option maxHeartbeats 1000000 in
theorem gStep5 : stepN 16 (EdwardsPoint.affine 2703644891088775716026699338926094727237785655194704181054852772690468488436611633467583568290759316382208207678408596999851858 1066068156470049438626724296707419947106957406163548423620553580265661976081174315597692164904890896870587958314795335579797838, EdwardsPoint.affine 1246315246662312531195856465406891405094614660794277010846724728904865847725650728622611221675657580545040485358000782214359540 689510758816478408262598840800827210220152600985790850125104656307129389964108013496409548880732704652496632375221671144146474, 279968092772225526319680285071055534765205687154331191862498637886009558829127509827898740494868449853) = (EdwardsPoint.affine 1135237607168292744304271602186998941384180014465355392749290884696531690402244350825066882496152242950211611063545299200718147 1444225741714092715996798628740827295068012312498236745497861213472005993619078273559127612342247054603239820460247811242726768, EdwardsPoint.affine 261936657282482639858516165779043890622404951785580625936729154429589648800475039153058087918067483352207874435972725547035842 838868694486569728219002657672416941224205726662459853726487050318772632056331558401617872852597250411111225839501068221860708, 4271974071841820164790043412339104229205409044713305539894083219696190778032341153379802558820624) := by decide

set_option maxRecDepth 2000000 in
set_option maxHeartbeats 1000000 in
theorem gStep6 : stepN 16 (EdwardsPoint.affine 1135237607168292744304271602186998941384180014465355392749290884696531690402244350825066882496152242950211611063545299200718147 1444225741714092715996798628740827295068012312498236745497861213472005993619078273559127612342247054603239820460247811242726768, EdwardsPoint.affine 261936657282482639858516165779043890622404951785580625936729154429589648800475039153058087918067483352207874435972725547035842 838868694486569728219002657672416941224205726662459853726487050318772632056331558401617872852597250411111225839501068221860708, 4271974071841820164790043412339104229205409044713305539894083219696190778032341153379802558820624) = (EdwardsPoint.affine 1037770834699468593604686316595745430940408843201173973567715147163706826219967687522589404441961582454620042851817470323090636 578656146871905754569391094099713546561651285395821741559728695521885951599432506244960095761319864493304460733813409828995657, EdwardsPoint.affine 1002909468084426324161007974592893516890791712965720551649394430949982105345439235612144047315540832255355967837679765655808157 2699408769291355711038734796612327256133657418480955293169121363291996156559424444185083479292137580797627993020285875240912274, 65185151242703554760590262029100101153646988597309960020356494441165020416753252462460366192) := by decide

set_option maxRecDepth 2000000 in
set_option maxHeartbeats 1000000 in
theorem gStep7 : stepN 16 (EdwardsPoint.affine 1037770834699468593604686316595745430940408843201173973567715147163706826219967687522589404441961582454620042851817470323090636 578656146871905754569391094099713546561651285395821741559728695521885951599432506244960095761319864493304460733813409828995657, EdwardsPoint.affine 1002909468084426324161007974592893516890791712965720551649394430949982105345439235612144047315540832255355967837679765655808157 2699408769291355711038734796612327256133657418480955293169121363291996156559424444185083479292137580797627993020285875240912274, 65185151242703554760590262029100101153646988597309960020356494441165020416753252462460366192) = (EdwardsPoint.affine 654841955347256201742350619727984907380635801044200143214061823636571579083060415103400456393663618370322729167417984565662213 2192369699952711022771295017784996657212357367265772322344063688334292507408561315392555375149108511997826065528378481331582869, EdwardsPoint.affine 2540179818240475969183475828975305365078904548337383411473578296298968467028082276786268536636985202875576987130848776023034584 1351325690857848639122128180556494108284228310630254809742538967752467966595021861057134379036455809046915125737860861046054591, 994646472819573284310764496293641680200912301594695434880927954729690863292743720435491) := by decide

set_option maxRecDepth 2000000 in
set_option maxHeartbeats 1000000 in
theorem gStep8 : stepN 16 (EdwardsPoint.affine 654841955347256201742350619727984907380635801044200143214061823636571579083060415103400456393663618370322729167417984565662213 2192369699952711022771295017784996657212357367265772322344063688334292507408561315392555375149108511997826065528378481331582869, EdwardsPoint.affine 2540179818240475969183475828975305365078904548337383411473578296298968467028082276786268536636985202875576987130848776023034584 1351325690857848639122128180556494108284228310630254809742538967752467966595021861057134379036455809046915125737860861046054591, 994646472819573284310764496293641680200912301594695434880927954729690863292743720435491) = (EdwardsPoint.affine 56506337559947729571780516399375056611187702936541838316940943015162297726454183347148264002355852062471097835308450465524675 2640328309499633168090700692466725092714260293217309879599210724851376148326509690119332102459269050304505617353029161707747370, EdwardsPoint.affine 415720263604488507560762010508175305380587711729394249760027470756039961305390606466296709695829717144293201978166456644679075 1762631734615305552663645126531719867202998589229800247978865986934813285111524895003744912232043997043149314139822631343014624, 15177100720513508366558296147058741458143803430094840009779784465479902088817500616) := by decide

set_option maxRecDepth 2000000 in
set_option maxHeartbeats 1000000 in
theorem gStep9 : stepN 16 (EdwardsPoint.affine 56506337559947729571780516399375056611187702936541838316940943015162297726454183347148264002355852062471097835308450465524675 2640328309499633168090700692466725092714260293217309879599210724851376148326509690119332102459269050304505617353029161707747370, EdwardsPoint.affine 415720263604488507560762010508175305380587711729394249760027470756039961305390606466296709695829717144293201978166456644679075 1762631734615305552663645126531719867202998589229800247978865986934813285111524895003744912232043997043149314139822631343014624, 15177100720513508366558296147058741458143803430094840009779784465479902088817500616) = (EdwardsPoint.affine 1829900729884719488952937456950475892661122104030742469802840387722303078920426112450288022211238000197745249371115608742837530 434181647615187567740461658784163861680244076610436986384228320147004821693742411681304943836983897073314342310335817641116126, EdwardsPoint.affine 2694709408992068436125508588225380581529016011079182340642345834440191765247016119837766386423445818766314249596821269478928167 2612178175785431705015688513292724477376192573622341316632754639823727664412523604291368252682834512521506239571331579929458993, 231584178474632390847141970017375815706539969331281128078915168235472138806419) := by decide

set_option maxRecDepth 2000000 in
set_option maxHeartbeats 1000000 in
theorem gStep10 : stepN 16 (EdwardsPoint.affine 1829900729884719488952937456950475892661122104030742469802840387722303078920426112450288022211238000197745249371115608742837530 434181647615187567740461658784163861680244076610436986384228320147004821693742411681304943836983897073314342310335817641116126, EdwardsPoint.affine 2694709408992068436125508588225380581529016011079182340642345834440191765247016119837766386423445818766314249596821269478928167 2612178175785431705015688513292724477376192573622341316632754639823727664412523604291368252682834512521506239571331579929458993, 231584178474632390847141970017375815706539969331281128078915168235472138806419) = (EdwardsPoint.affine 1138614999090875923339221184574520513896015154140095543853914443715987706311820007424816413163069913576453960387408981668183665 1635241872069520558975189801473017082301020821046426685855201841477462592627357341112837921733993485786683860094296766954719134, EdwardsPoint.affine 1348799876636656747856855917555081234964340138788137356096237202930546407447191025960244437053221285878350978403918653798959831 2181799638576495316123827168562538965227145844052805053451739494644423600971024154489248377735914714806342681498525389704749457, 3533694129556768659166595001485837031654967793751237916243212405936769696) := by decide

set_option maxRecDepth 2000000 in
set_option maxHeartbeats 1000000 in
theorem gStep11 : stepN 16 (EdwardsPoint.affine 1138614999090875923339221184574520513896015154140095543853914443715987706311820007424816413163069913576453960387408981668183665 1635241872069520558975189801473017082301020821046426685855201841477462592627357341112837921733993485786683860094296766954719134, EdwardsPoint.affine 1348799876636656747856855917555081234964340138788137356096237202930546407447191025960244437053221285878350978403918653798959831 2181799638576495316123827168562538965227145844052805053451739494644423600971024154489248377735914714806342681498525389704749457, 3533694129556768659166595001485837031654967793751237916243212405936769696) = (EdwardsPoint.affine 2261990323750173718728103489202277355137992401932505495120015528711047074779360399274776066200568819199215348611021388621657423 151968889758681420620270248553721668664062362308583899528284522189744262338501600106612692355889610929433283581124159114805741, EdwardsPoint.affine 1249561005655452092288857903903099264901882266987808776799397283344059989683957977310228525576005285939618692610942120593744924 1542767758175888330970075729259735224763373717359294053841138700397849931644042124711429781296292294184451390429599276454408110, 53919893334301279589334030174039261347274288845081144962207220549572) := by decide

set_option maxRecDepth 2000000 in
set_option maxHeartbeats 1000000 in
theorem gStep12 : stepN 16 (EdwardsPoint.affine 2261990323750173718728103489202277355137992401932505495120015528711047074779360399274776066200568819199215348611021388621657423 151968889758681420620270248553721668664062362308583899528284522189744262338501600106612692355889610929433283581124159114805741, EdwardsPoint.affine 1249561005655452092288857903903099264901882266987808776799397283344059989683957977310228525576005285939618692610942120593744924 1542767758175888330970075729259735224763373717359294053841138700397849931644042124711429781296292294184451390429599276454408110, 53919893334301279589334030174039261347274288845081144962207220549572) = (EdwardsPoint.affine 1836106335126802758979148023165803563466361589105891754929265134607363070058281519590260661134317102889383512870056149051380722 1905094321370885856698299796438587371432734423463631679599215741133297646701578034243372835212020585576167501054052353486313209, EdwardsPoint.affine 548128903099433917489866328490308834056009566425184895568138752666662654871343543815942799888403250533104088903920808611491854 2299397547888276647419107739629035372820630826723974897266074225385518844490472379313650408307728538183108791818559410043302412, 822752278660603021077484591278675252491367932816789931674304512) := by decide

set_option maxRecDepth 2000000 in
set_option maxHeartbeats 1000000 in
theorem gStep13 : stepN 16 (EdwardsPoint.affine 1836106335126802758979148023165803563466361589105891754929265134607363070058281519590260661134317102889383512870056149051380722 1905094321370885856698299796438587371432734423463631679599215741133297646701578034243372835212020585576167501054052353486313209, EdwardsPoint.affine 548128903099433917489866328490308834056009566425184895568138752666662654871343543815942799888403250533104088903920808611491854 2299397547888276647419107739629035372820630826723974897266074225385518844490472379313650408307728538183108791818559410043302412, 822752278660603021077484591278675252491367932816789931674304512) = (EdwardsPoint.affine 1836106335126802758979148023165803563466361589105891754929265134607363070058281519590260661134317102889383512870056149051380722 1905094321370885856698299796438587371432734423463631679599215741133297646701578034243372835212020585576167501054052353486313209, EdwardsPoint.affine 679264569162812446916065569738341726552706970404507645466410941844741382956983329953854269904504107675187287001619715938463225 2262487091061294310154361186510991304552241945891212908331122420765454736516194066966535979455873709736425477579717106797203511, 12554203470773361527671578846415332832204710888928069025792) := by decide

set_option maxRecDepth 2000000 in
set_option maxHeartbeats 1000000 in
theorem gStep14 : stepN 16 (EdwardsPoint.affine 1836106335126802758979148023165803563466361589105891754929265134607363070058281519590260661134317102889383512870056149051380722 1905094321370885856698299796438587371432734423463631679599215741133297646701578034243372835212020585576167501054052353486313209, EdwardsPoint.affine 679264569162812446916065569738341726552706970404507645466410941844741382956983329953854269904504107675187287001619715938463225 2262487091061294310154361186510991304552241945891212908331122420765454736516194066966535979455873709736425477579717106797203511, 12554203470773361527671578846415332832204710888928069025792) = (EdwardsPoint.affine 1836106335126802758979148023165803563466361589105891754929265134607363070058281519590260661134317102889383512870056149051380722 1905094321370885856698299796438587371432734423463631679599215741133297646701578034243372835212020585576167501054052353486313209, EdwardsPoint.affine 1332520784674311197241748334265861538398779624257647163998759638660592711552541345292940393708389795733048418412477541816525827 1419700333829530194323280202533514547921825850708588207273379942083852601776629005046377118628070908479962209340619281755806167, 191561942608236107294793378393788647952342390272950272) := by decide

set_option maxRecDepth 2000000 in
set_option maxHeartbeats 1000000 in
theorem gStep15 : stepN 16 (EdwardsPoint.affine 1836106335126802758979148023165803563466361589105891754929265134607363070058281519590260661134317102889383512870056149051380722 1905094321370885856698299796438587371432734423463631679599215741133297646701578034243372835212020585576167501054052353486313209, EdwardsPoint.affine 1332520784674311197241748334265861538398779624257647163998759638660592711552541345292940393708389795733048418412477541816525827 1419700333829530194323280202533514547921825850708588207273379942083852601776629005046377118628070908479962209340619281755806167, 191561942608236107294793378393788647952342390272950272) = (EdwardsPoint.affine 1836106335126802758979148023165803563466361589105891754929265134607363070058281519590260661134317102889383512870056149051380722 1905094321370885856698299796438587371432734423463631679599215741133297646701578034243372835212020585576167501054052353486313209, EdwardsPoint.affine 2528866024355458195002798012516046257412481882517718801599280226303457548016036256197095164993996673555640233056664478974038990 2351998101112231661169654402901662005286688469816523526784795621204578840765484880152253435929375855379214373365442694416355052, 2923003274661805836407369665432566039311865085952) := by decide

set_option maxRecDepth 2000000 in
set_option maxHeartbeats 1000000 in
theorem gStep16 : stepN 16 (EdwardsPoint.affine 1836106335126802758979148023165803563466361589105891754929265134607363070058281519590260661134317102889383512870056149051380722 1905094321370885856698299796438587371432734423463631679599215741133297646701578034243372835212020585576167501054052353486313209, EdwardsPoint.affine 2528866024355458195002798012516046257412481882517718801599280226303457548016036256197095164993996673555640233056664478974038990 2351998101112231661169654402901662005286688469816523526784795621204578840765484880152253435929375855379214373365442694416355052, 2923003274661805836407369665432566039311865085952) = (EdwardsPoint.affine 1836106335126802758979148023165803563466361589105891754929265134607363070058281519590260661134317102889383512870056149051380722 1905094321370885856698299796438587371432734423463631679599215741133297646701578034243372835212020585576167501054052353486313209, EdwardsPoint.affine 1511675030813134864874408756122139269123512097437792886980202526997986007983170667220268527872016331068163587312635889117784351 2207781504869543553487995390369269274086217976987783190914249837555017361396053411008094976395663332875168088696890953892281085, 44601490397061246283071436545296723011960832) := by decide

set_option maxRecDepth 2000000 in
set_option maxHeartbeats 1000000 in
theorem gStep17 : stepN 16 (EdwardsPoint.affine 1836106335126802758979148023165803563466361589105891754929265134607363070058281519590260661134317102889383512870056149051380722 1905094321370885856698299796438587371432734423463631679599215741133297646701578034243372835212020585576167501054052353486313209, EdwardsPoint.affine 1511675030813134864874408756122139269123512097437792886980202526997986007983170667220268527872016331068163587312635889117784351 2207781504869543553487995390369269274086217976987783190914249837555017361396053411008094976395663332875168088696890953892281085, 44601490397061246283071436545296723011960832) = (EdwardsPoint.affine 1836106335126802758979148023165803563466361589105891754929265134607363070058281519590260661134317102889383512870056149051380722 1905094321370885856698299796438587371432734423463631679599215741133297646701578034243372835212020585576167501054052353486313209, EdwardsPoint.affine 1242703184290588841802474990060443401252117111862437049973478805540828247667928249506214498928564776245183083112204208698781815 362528301823899725525268184216808128577134614684042768672494499469215640206030853177178144739415450564722055167413601820907152, 680564733841876926926749214863536422912) := by decide

set_option maxRecDepth 2000000 in
set_option maxHeartbeats 1000000 in
theorem gStep18 : stepN 16 (EdwardsPoint.affine 1836106335126802758979148023165803563466361589105891754929265134607363070058281519590260661134317102889383512870056149051380722 1905094321370885856698299796438587371432734423463631679599215741133297646701578034243372835212020585576167501054052353486313209, EdwardsPoint.affine 1242703184290588841802474990060443401252117111862437049973478805540828247667928249506214498928564776245183083112204208698781815 362528301823899725525268184216808128577134614684042768672494499469215640206030853177178144739415450564722055167413601820907152, 680564733841876926926749214863536422912) = (EdwardsPoint.affine 1836106335126802758979148023165803563466361589105891754929265134607363070058281519590260661134317102889383512870056149051380722 1905094321370885856698299796438587371432734423463631679599215741133297646701578034243372835212020585576167501054052353486313209, EdwardsPoint.affine 2016944765398855464165085303846599264020799577319528989171827330319864138724296631285122069058687561366749911709640772880134157 940700430867254610994652724174797215629209807931157872483616746852155773311571525753913730902281424110749409323362785540047806, 10384593717069655257060992658440192) := by decide

set_option maxRecDepth 2000000 in
set_option maxHeartbeats 1000000 in
theorem gStep19 : stepN 16 (EdwardsPoint.affine 1836106335126802758979148023165803563466361589105891754929265134607363070058281519590260661134317102889383512870056149051380722 1905094321370885856698299796438587371432734423463631679599215741133297646701578034243372835212020585576167501054052353486313209, EdwardsPoint.affine 2016944765398855464165085303846599264020799577319528989171827330319864138724296631285122069058687561366749911709640772880134157 940700430867254610994652724174797215629209807931157872483616746852155773311571525753913730902281424110749409323362785540047806, 10384593717069655257060992658440192) = (EdwardsPoint.affine 1836106335126802758979148023165803563466361589105891754929265134607363070058281519590260661134317102889383512870056149051380722 1905094321370885856698299796438587371432734423463631679599215741133297646701578034243372835212020585576167501054052353486313209, EdwardsPoint.affine 2127073624726727892421435859996462821963090957199483958003857577709317293634379994874650375757942608756199247858742810066299993 70550426781521375724366141150087650795974293877857794099871726575583945554664388003057675401816351919977326567571022231985193, 158456325028528675187087900672) := by decide

set_option maxRecDepth 2000000 in
set_option maxHeartbeats 1000000 in
theorem gStep20 : stepN 16 (EdwardsPoint.affine 1836106335126802758979148023165803563466361589105891754929265134607363070058281519590260661134317102889383512870056149051380722 1905094321370885856698299796438587371432734423463631679599215741133297646701578034243372835212020585576167501054052353486313209, EdwardsPoint.affine 2127073624726727892421435859996462821963090957199483958003857577709317293634379994874650375757942608756199247858742810066299993 70550426781521375724366141150087650795974293877857794099871726575583945554664388003057675401816351919977326567571022231985193, 158456325028528675187087900672) = (EdwardsPoint.affine 1836106335126802758979148023165803563466361589105891754929265134607363070058281519590260661134317102889383512870056149051380722 1905094321370885856698299796438587371432734423463631679599215741133297646701578034243372835212020585576167501054052353486313209, EdwardsPoint.affine 2609213391189624863952041424525908831421240307781888275274692924606620545259076798516684642564108939650002086623864594269014949 1960201074258938335719565737978587951722918028413563108388962634603411301261949201086383853363475264630985216594346808788249074, 2417851639229258349412352) := by decide

set_option maxRecDepth 2000000 in
set_option maxHeartbeats 1000000 in
theorem gStep21 : stepN 16 (EdwardsPoint.affine 1836106335126802758979148023165803563466361589105891754929265134607363070058281519590260661134317102889383512870056149051380722 1905094321370885856698299796438587371432734423463631679599215741133297646701578034243372835212020585576167501054052353486313209, EdwardsPoint.affine 2609213391189624863952041424525908831421240307781888275274692924606620545259076798516684642564108939650002086623864594269014949 1960201074258938335719565737978587951722918028413563108388962634603411301261949201086383853363475264630985216594346808788249074, 2417851639229258349412352) = (EdwardsPoint.affine 1836106335126802758979148023165803563466361589105891754929265134607363070058281519590260661134317102889383512870056149051380722 1905094321370885856698299796438587371432734423463631679599215741133297646701578034243372835212020585576167501054052353486313209, EdwardsPoint.affine 2613838830479453632579780605088661110795145528592289141040949001487446327234455407357122530203847708731624027753020750555564680 1970544761963016810495978670454151041682125039688010423832539316790804257905991552846550386717729070609984540502960853223990275, 36893488147419103232) := by decide

set_option maxRecDepth 2000000 in
set_option maxHeartbeats 1000000 in
theorem gStep22 : stepN 16 (EdwardsPoint.affine 1836106335126802758979148023165803563466361589105891754929265134607363070058281519590260661134317102889383512870056149051380722 1905094321370885856698299796438587371432734423463631679599215741133297646701578034243372835212020585576167501054052353486313209, EdwardsPoint.affine 2613838830479453632579780605088661110795145528592289141040949001487446327234455407357122530203847708731624027753020750555564680 1970544761963016810495978670454151041682125039688010423832539316790804257905991552846550386717729070609984540502960853223990275, 36893488147419103232) = (EdwardsPoint.affine 1836106335126802758979148023165803563466361589105891754929265134607363070058281519590260661134317102889383512870056149051380722 1905094321370885856698299796438587371432734423463631679599215741133297646701578034243372835212020585576167501054052353486313209, EdwardsPoint.affine 890808670733766024768938531274990280416418903261342429447555677805679074743168436331905733220350458471218517072893750690483812 1304015277102108437037217394941723906810239160681440989948196757141994340477584325317655720695484220745134316709183737832863605, 562949953421312) := by decide

set_option maxRecDepth 2000000 in
set_option maxHeartbeats 1000000 in
theorem gStep23 : stepN 16 (EdwardsPoint.affine 1836106335126802758979148023165803563466361589105891754929265134607363070058281519590260661134317102889383512870056149051380722 1905094321370885856698299796438587371432734423463631679599215741133297646701578034243372835212020585576167501054052353486313209, EdwardsPoint.affine 890808670733766024768938531274990280416418903261342429447555677805679074743168436331905733220350458471218517072893750690483812 1304015277102108437037217394941723906810239160681440989948196757141994340477584325317655720695484220745134316709183737832863605, 562949953421312) = (EdwardsPoint.affine 1836106335126802758979148023165803563466361589105891754929265134607363070058281519590260661134317102889383512870056149051380722 1905094321370885856698299796438587371432734423463631679599215741133297646701578034243372835212020585576167501054052353486313209, EdwardsPoint.affine 735565215717246652677319189625433300161009464260627509530518790489810916116571984905787390126979257965735304929688801859612116 264979563727640768079158171634137464584893232320398457627196568891042132784914916181146930788078158209942518927172597894288693, 8589934592) := by decide

set_option maxRecDepth 2000000 in
set_option maxHeartbeats 1000000 in
theorem gStep24 : stepN 16 (EdwardsPoint.affine 1836106335126802758979148023165803563466361589105891754929265134607363070058281519590260661134317102889383512870056149051380722 1905094321370885856698299796438587371432734423463631679599215741133297646701578034243372835212020585576167501054052353486313209, EdwardsPoint.affine 735565215717246652677319189625433300161009464260627509530518790489810916116571984905787390126979257965735304929688801859612116 264979563727640768079158171634137464584893232320398457627196568891042132784914916181146930788078158209942518927172597894288693, 8589934592) = (EdwardsPoint.affine 1836106335126802758979148023165803563466361589105891754929265134607363070058281519590260661134317102889383512870056149051380722 1905094321370885856698299796438587371432734423463631679599215741133297646701578034243372835212020585576167501054052353486313209, EdwardsPoint.affine 2424601039332069063321166126145812389807368564324627235966867515247307961106862640326075067295334234309814065650819045365113786 1654127553111668246020764166619582053202749997711826607057291497298322146718060572733454486855166789877843489624982872929633728, 131072) := by decide

set_option maxRecDepth 2000000 in
set_option maxHeartbeats 1000000 in
theorem gStep25 : stepN 16 (EdwardsPoint.affine 1836106335126802758979148023165803563466361589105891754929265134607363070058281519590260661134317102889383512870056149051380722 1905094321370885856698299796438587371432734423463631679599215741133297646701578034243372835212020585576167501054052353486313209, EdwardsPoint.affine 2424601039332069063321166126145812389807368564324627235966867515247307961106862640326075067295334234309814065650819045365113786 1654127553111668246020764166619582053202749997711826607057291497298322146718060572733454486855166789877843489624982872929633728, 131072) = (EdwardsPoint.affine 1836106335126802758979148023165803563466361589105891754929265134607363070058281519590260661134317102889383512870056149051380722 1905094321370885856698299796438587371432734423463631679599215741133297646701578034243372835212020585576167501054052353486313209, EdwardsPoint.affine 1299160972240398022164332551844226666733873151363608622700114344139178243465674926399844467511555839205862459708629843687113012 801548967207460132106125337263623273631988653856749141146408839612273058936935871712278467191179928316901421472697799915187388, 2) := by decide

theorem gAll : stepN 416 (EdwardsPoint.infinity, EdwardsPoint.affine 2554519045303036994902077297242990796196199161457630080356703041833906288977089421513471756737913123939108844302244613830350009 1554004282195909523747673681974014268960308454695342458183393593582942692590987497223833263666951454840260505456918987028153736, 338460656020607282663380637712778772392143197677711984273740183501508577674026655281164768623743539442603492250355597371718719) = (EdwardsPoint.affine 1836106335126802758979148023165803563466361589105891754929265134607363070058281519590260661134317102889383512870056149051380722 1905094321370885856698299796438587371432734423463631679599215741133297646701578034243372835212020585576167501054052353486313209, EdwardsPoint.affine 1299160972240398022164332551844226666733873151363608622700114344139178243465674926399844467511555839205862459708629843687113012 801548967207460132106125337263623273631988653856749141146408839612273058936935871712278467191179928316901421472697799915187388, 2) := by
  rw [show (416 : Nat) = 16 + 400 from rfl, stepN_add, gStep0]
  rw [show (400 : Nat) = 16 + 384 from rfl, stepN_add, gStep1]
  rw [show (384 : Nat) = 16 + 368 from rfl, stepN_add, gStep2]
  rw [show (368 : Nat) = 16 + 352 from rfl, stepN_add, gStep3]
  rw [show (352 : Nat) = 16 + 336 from rfl, stepN_add, gStep4]
  rw [show (336 : Nat) = 16 + 320 from rfl, stepN_add, gStep5]
  rw [show (320 : Nat) = 16 + 304 from rfl, stepN_add, gStep6]
  rw [show (304 : Nat) = 16 + 288 from rfl, stepN_add, gStep7]
  rw [show (288 : Nat) = 16 + 272 from rfl, stepN_add, gStep8]
  rw [show (272 : Nat) = 16 + 256 from rfl, stepN_add, gStep9]
  rw [show (256 : Nat) = 16 + 240 from rfl, stepN_add, gStep10]
  rw [show (240 : Nat) = 16 + 224 from rfl, stepN_add, gStep11]
  rw [show (224 : Nat) = 16 + 208 from rfl, stepN_add, gStep12]
  rw [show (208 : Nat) = 16 + 192 from rfl, stepN_add, gStep13]
  rw [show (192 : Nat) = 16 + 176 from rfl, stepN_add, gStep14]
  rw [show (176 : Nat) = 16 + 160 from rfl, stepN_add, gStep15]
  rw [show (160 : Nat) = 16 + 144 from rfl, stepN_add, gStep16]
  rw [show (144 : Nat) = 16 + 128 from rfl, stepN_add, gStep17]
  rw [show (128 : Nat) = 16 + 112 from rfl, stepN_add, gStep18]
  rw [show (112 : Nat) = 16 + 96 from rfl, stepN_add, gStep19]
  rw [show (96 : Nat) = 16 + 80 from rfl, stepN_add, gStep20]
  rw [show (80 : Nat) = 16 + 64 from rfl, stepN_add, gStep21]
  rw [show (64 : Nat) = 16 + 48 from rfl, stepN_add, gStep22]
  rw [show (48 : Nat) = 16 + 32 from rfl, stepN_add, gStep23]
  rw [show (32 : Nat) = 16 + 16 from rfl, stepN_add, gStep24]
  exact gStep25

set_option maxRecDepth 2000000 in
set_option maxHeartbeats 1000000 in
/-- L times the base point evaluates to the affine identity representation (0, 1), the computation of the test test_base_point_order of curve.rs. -/
theorem mulG_L : mulScalar (EdwardsPoint.affine Gx Gy) L = EdwardsPoint.affine 0 1 := by
  show mulScalarF 512 .infinity (.affine Gx Gy) L = _
  rw [show (512 : Nat) = 96 + 416 from rfl]
  rw [mulScalarF_chunk 416 96 _ _ _ (by decide : 2 ^ 416 ≤ L)]
  rw [show (EdwardsPoint.infinity, EdwardsPoint.affine Gx Gy, L) = (EdwardsPoint.infinity, EdwardsPoint.affine 2554519045303036994902077297242990796196199161457630080356703041833906288977089421513471756737913123939108844302244613830350009 1554004282195909523747673681974014268960308454695342458183393593582942692590987497223833263666951454840260505456918987028153736, 338460656020607282663380637712778772392143197677711984273740183501508577674026655281164768623743539442603492250355597371718719) from by decide]
  rw [gAll]
  decide

/-- The base point passes the prime-order subgroup check, by computation. -/
theorem hacc_G : from_edwards_checked (.affine Gx Gy) = some ⟨.affine Gx Gy⟩ := by
  unfold from_edwards_checked
  rw [mulG_L]
  decide

set_option maxRecDepth 1000000 in
/-- Witness for encode_decode_roundtrip at the base point. -/
theorem encode_decode_roundtrip_witness :
    Gx < P ∧ Gy < P ∧ onCurve Gx Gy ∧
      from_edwards_checked (.affine Gx Gy) = some ⟨.affine Gx Gy⟩ ∧
      rdecode (rencode ⟨.affine Gx Gy⟩) = .ok ⟨.affine Gx Gy⟩ :=
  ⟨by decide, by decide, by decide, hacc_G,
    (encode_decode_roundtrip Gx Gy (by decide) (by decide) (by decide) hacc_G).1⟩

set_option maxRecDepth 40000 in
/-- Claim C10: inv is a total function; on the excluded input 0 it returns 0
(0^(p-2) mod p = 0) instead of failing; on every input it returns exactly
x^(p-2) mod p, and for nonzero canonical x that value is the multiplicative
inverse. -/
theorem fe_inv_spec :
    fe_inv 0 = 0 ∧ (∀ x : Nat, fe_inv x = x ^ (P - 2) % P) ∧
      (∀ x : Nat, 0 < x → x < P → x * fe_inv x % P = 1) := by
  refine ⟨by decide, fun x => powMod_eq x (P - 2) P Pm2_lt_fuelBound, ?_⟩
  intro x hx0 hx
  have hxz : (x : ZMod P) ≠ 0 := cast_ne_zero_of_lt hx (by omega)
  apply cast_inj_of_lt (Nat.mod_lt _ P_pos) one_lt_P
  rw [ZMod.natCast_mod, Nat.cast_mul, cast_fe_inv]
  rw [← pow_succ']
  rw [show P - 2 + 1 = P - 1 from by have := one_lt_P; omega]
  rw [ZMod.pow_card_sub_one_eq_one hxz]
  exact Nat.cast_one.symm

set_option maxRecDepth 40000 in
/-- Witness for fe_inv_spec at x = 2. -/
theorem fe_inv_spec_witness : 0 < 2 ∧ 2 < P ∧ 2 * fe_inv 2 % P = 1 :=
  ⟨by decide, by decide, fe_inv_spec.2.2 2 (by decide) (by decide)⟩

set_option maxRecDepth 100000 in
/-- Spot check of the ladder agreement at k = 5: the Montgomery ladder
result equals the Edwards scalar multiple mapped via u = (1+y)/(1-y). -/
theorem ladder_agreement_sample :
    montgomery_ladder G_MONT_U 5
      = fe_mul (fe_add 1 (coords (mulScalar Gpt 5)).2)
          (fe_inv (fe_sub 1 (coords (mulScalar Gpt 5)).2)) := by decide

end Curve420








